import Mathlib

/-!
Shallow embedding of the mockday interview service (Python) in Lean 4,
with theorems settling the frozen claims about its specification.

Source files embedded:
  backend/interview_service/difficulty_manager.py
  backend/interview_service/models.py
  backend/shared/providers/pool_manager.py
  backend/interview_service/skill_weighting.py
  backend/interview_service/report_generator.py
  backend/interview_service/phased_flow.py
  backend/interview_service/websocket_handler.py
  backend/interview_service/main.py (websocket_endpoint prologue, start endpoint)

Machine reals (Python float) are modelled by `Rat`; Python dicts that
preserve insertion order are modelled by association lists; external
effects (LLM calls, random draws, clocks, stores) are modelled by oracle
parameters, so every theorem quantifies over all their behaviours.
-/

namespace Mockday

/-- Python `needle in haystack` on strings (substring containment). -/
def pyIn (needle haystack : String) : Bool :=
  decide (needle.data <:+: haystack.data)

/-- Python `s.lower()` (character-wise lower-casing). -/
def pyToLower (s : String) : String :=
  ⟨s.data.map Char.toLower⟩

/-- Python `s.strip()` (removal of leading and trailing whitespace). -/
def pyStrip (s : String) : String :=
  ⟨((s.data.dropWhile Char.isWhitespace).reverse.dropWhile
      Char.isWhitespace).reverse⟩

/-- Stable insertion used by `pySortBy`: `x` goes in front of the first
element `y` with `le x y`, so elements equal under the key keep their
original relative order, as Python's stable `sorted` does. -/
def pySortInsert (le : α → α → Bool) (x : α) : List α → List α
  | [] => [x]
  | y :: ys => if le x y then x :: y :: ys else y :: pySortInsert le x ys

/-- Python's stable `sorted`.  For an ascending sort by key `k`, pass
`le a b := k a ≤ k b`; for `reverse=True`, pass `le a b := k a ≥ k b`. -/
def pySortBy (le : α → α → Bool) : List α → List α
  | [] => []
  | x :: xs => pySortInsert le x (pySortBy le xs)

/-- Python `max(xs, key=k)` on a nonempty list: returns the first element
whose key is maximal (later elements replace only on strictly greater key).
`gt a b` must mean "key of a is strictly greater than key of b". -/
def pyMaxBy (gt : α → α → Bool) (x : α) (xs : List α) : α :=
  xs.foldl (fun best c => if gt c best then c else best) x

/-- Python `int(q)` on a rational: truncation toward zero. -/
def pyTrunc (q : Rat) : Int :=
  if 0 ≤ q then ⌊q⌋ else ⌈q⌉

/-- Ordered-dict lookup (`d.get(k)` / `k in d`). -/
def alGet (l : List (String × β)) (k : String) : Option β :=
  (l.find? (fun p => p.1 = k)).map Prod.snd

/-- Ordered-dict membership (`k in d`). -/
def alMem (l : List (String × β)) (k : String) : Bool :=
  l.any (fun p => p.1 = k)

/-- Python `d.setdefault(k, []); d[k].append(v)`: appends `v` to the list
at key `k`, inserting the key at the end when absent (dict insertion order). -/
def alAppendAt (l : List (String × List β)) (k : String) (v : β) :
    List (String × List β) :=
  match l with
  | [] => [(k, [v])]
  | (k0, vs) :: rest =>
      if k0 = k then (k0, vs ++ [v]) :: rest else (k0, vs) :: alAppendAt rest k v

/-- Ordered-dict write `d[k] = v` (update in place, insert at end if new). -/
def alSet (l : List (String × β)) (k : String) (v : β) : List (String × β) :=
  match l with
  | [] => [(k, v)]
  | (k0, v0) :: rest =>
      if k0 = k then (k0, v) :: rest else (k0, v0) :: alSet rest k v

/-! ## models.py -/

/-- `InterviewPhase` from models.py. -/
inductive InterviewPhase
  | introduction
  | projects
  | standout_skills
  | role_skills
  deriving DecidableEq, Repr

/-- `.value` of `InterviewPhase` (its string member value). -/
def InterviewPhase.value : InterviewPhase → String
  | .introduction => "introduction"
  | .projects => "projects"
  | .standout_skills => "standout_skills"
  | .role_skills => "role_skills"

/-- `DifficultyLevel` from models.py: a four-valued int enum. -/
inductive DifficultyLevel
  | basic
  | intermediate
  | advanced
  | expert
  deriving DecidableEq, Repr

/-- The integer value of a `DifficultyLevel` member (BASIC = 1 … EXPERT = 4). -/
def DifficultyLevel.value : DifficultyLevel → Int
  | .basic => 1
  | .intermediate => 2
  | .advanced => 3
  | .expert => 4

/-- The enum constructor call `DifficultyLevel(n)`: `none` models the
`ValueError` Python raises when `n` is not one of the four member values. -/
def difficultyFromInt (n : Int) : Option DifficultyLevel :=
  if n = 1 then some .basic
  else if n = 2 then some .intermediate
  else if n = 3 then some .advanced
  else if n = 4 then some .expert
  else none

/-- `QuestionType` from models.py. -/
inductive QuestionType
  | conceptual
  | practical
  | coding
  | system_design
  deriving DecidableEq, Repr

/-- `InterviewFlowState` from models.py. -/
inductive InterviewFlowState
  | ai_speaking
  | user_speaking
  | ai_thinking
  | user_waiting
  | interview_complete
  deriving DecidableEq, Repr

/-- `InterviewStatus` from models.py. -/
inductive InterviewStatus
  | not_started
  | in_progress
  | completed
  | cancelled
  deriving DecidableEq, Repr

/-- The entries of a question's `context` dict that the control flow reads
or writes (`project`, `question_type`, `phase`, `source`, `transition`,
`adaptive_difficulty`, `injected`). -/
structure QuestionContext where
  project : Option String := none
  question_type : Option String := none
  phase : Option String := none
  source : Option String := none
  transition : Option String := none
  adaptive_difficulty : Option String := none
  injected : Bool := false
  deriving DecidableEq, Repr

/-- `Question` from models.py. -/
structure Question where
  question_id : String
  question : String
  skill : String
  difficulty : DifficultyLevel
  type : QuestionType
  context : Option QuestionContext := none
  deriving DecidableEq, Repr

/-- `Evaluation` from models.py (the fields the control flow reads). -/
structure Evaluation where
  score : Rat
  feedback : String := ""
  next_difficulty : DifficultyLevel
  deriving DecidableEq, Repr

/-- `SkillWeight` from models.py. -/
structure SkillWeight where
  skill : String
  weight : Rat
  role_relevance : Rat
  resume_experience : Rat
  project_count : Rat
  deriving DecidableEq, Repr

/-- `Skill` from models.py (résumé skill entry). -/
structure ResumeSkill where
  name : String
  years : Rat := 0
  projects : List String := []
  deriving DecidableEq, Repr

/-- `Project` from models.py (résumé project entry). -/
structure ResumeProject where
  name : String
  description : Option String := none
  technologies : List String := []
  deriving DecidableEq, Repr

/-- `Experience` from models.py (résumé experience entry). -/
structure ResumeExperience where
  role : String
  company : String
  skills_used : List String := []
  deriving DecidableEq, Repr

/-- `ResumeData` from models.py. -/
structure ResumeData where
  skills : List ResumeSkill := []
  projects : List ResumeProject := []
  experience : List ResumeExperience := []
  deriving DecidableEq, Repr

/-- One entry of `conversation_history` (the qa_pair dict built in
websocket_handler.handle_answer_submission). -/
structure QAPair where
  question : String
  question_id : String
  skill : String
  answer : String
  evaluation : Evaluation
  deriving DecidableEq, Repr

/-- `InterviewState` from models.py (the fields the embedded control flow
touches).  `phase_questions` is the dict `str -> int` with `.get(k, 0)`
semantics, modelled as a total function on the four phases. -/
structure InterviewState where
  interview_id : String
  user_id : String
  role : String
  status : InterviewStatus
  current_phase : InterviewPhase := .introduction
  flow_state : InterviewFlowState := .user_waiting
  resume_data : ResumeData
  skill_weights : List SkillWeight := []
  use_llm_for_all_questions : Bool := true
  answered_skills : List (String × List Evaluation) := []
  answered_projects : List (String × List Evaluation) := []
  current_difficulty : DifficultyLevel := .basic
  current_skill : Option String := none
  current_project : Option String := none
  current_question : Option Question := none
  questions_asked : List Question := []
  total_questions : Nat := 0
  max_questions : Nat := 15
  phase_questions : InterviewPhase → Nat := fun _ => 0
  started_at : Option Nat := none
  interview_duration_minutes : Nat := 30
  conversation_history : List QAPair := []
  max_context_pairs : Nat := 5
  report_id : Option String := none
  experience_level : Option String := none

/-- Dict write `state.phase_questions[p] = v` as a function update. -/
def updPQ (f : InterviewPhase → Nat) (p : InterviewPhase) (v : Nat) :
    InterviewPhase → Nat :=
  fun q => if q = p then v else f q

/-- The sum of the per-phase question counts (`sum(phase_questions.values())`). -/
def sumPhaseQuestions (f : InterviewPhase → Nat) : Nat :=
  f .introduction + f .projects + f .standout_skills + f .role_skills

/-! ## difficulty_manager.py -/

/-- `calculate_moving_average_scores(evaluations, window_size)`: the mean of
the scores of the last `window_size` evaluations, `0.5` on an empty list. -/
def calculate_moving_average_scores (evaluations : List Evaluation)
    (window_size : Nat := 3) : Rat :=
  if evaluations = [] then 1/2
  else
    let recent_scores := (evaluations.drop (evaluations.length - window_size)).map
      (fun e => e.score)
    recent_scores.sum / recent_scores.length

/-- `calculate_smoothed_difficulty(current_difficulty, recent_evaluations,
window_size)`.  Returns `none` where Python's `DifficultyLevel(...)` call
would raise `ValueError` (it never does here, as the theorems show). -/
def calculate_smoothed_difficulty (current_difficulty : DifficultyLevel)
    (recent_evaluations : List Evaluation) (window_size : Nat := 3) :
    Option DifficultyLevel :=
  if recent_evaluations = [] then some current_difficulty
  else
    let avg_score := calculate_moving_average_scores recent_evaluations window_size
    let current_value := current_difficulty.value
    let new_difficulty : Int :=
      if avg_score ≥ 8/10 then min (current_value + 1) 4
      else if avg_score ≥ 6/10 then current_value
      else if avg_score ≥ 4/10 then max (current_value - 1) 1
      else max (current_value - 1) 1
    let change := new_difficulty - current_value
    let new_difficulty :=
      if 1 < |change| then current_value + (if 0 < change then 1 else -1)
      else new_difficulty
    let new_difficulty := max 1 (min 4 new_difficulty)
    difficultyFromInt new_difficulty

/-- Refinement reference for claim C2, written from the specification's
words: the next difficulty is a function of the moving average alone —
`avg ≥ 0.8` steps up, `0.6 ≤ avg < 0.8` keeps, `avg < 0.6` steps down,
clamped to the four levels. -/
def specNextDifficulty (d : DifficultyLevel) (avg : Rat) : DifficultyLevel :=
  let target : Int :=
    if avg ≥ 8/10 then d.value + 1
    else if avg ≥ 6/10 then d.value
    else d.value - 1
  match difficultyFromInt (max 1 (min 4 target)) with
  | some d2 => d2
  | none => d

/-! ## shared/providers/pool_manager.py -/

/-- `ProviderAccount` from pool_manager.py (timestamps are abstract `Nat`
instants; `datetime.min` is `0`). -/
structure ProviderAccount where
  api_key : String
  requests_count : Nat := 0
  error_count : Nat := 0
  last_used : Option Nat := none
  rate_limit_reset : Option Nat := none
  is_healthy : Bool := true
  last_error : Option String := none
  deriving DecidableEq, Repr

/-- `ProviderAccount.is_rate_limited`: true when a reset instant is set and
`now` is still before it. -/
def ProviderAccount.is_rate_limited (a : ProviderAccount) (now : Nat) : Bool :=
  match a.rate_limit_reset with
  | some t => now < t
  | none => false

/-- The selection strategies of `ProviderPoolManager.get_account`.  The
`random` strategy carries the index drawn by `random.choice`. -/
inductive PoolStrategy
  | round_robin
  | least_used
  | random (idx : Nat)
  deriving DecidableEq, Repr

/-- `ProviderPoolManager.get_account(provider_type, strategy)` for one
provider's pool.  `now` is the clock read by `is_rate_limited`.  When no
account is healthy and unlimited, the code falls back to the whole pool
sorted by `rate_limit_reset` descending (`reverse=True`, missing reset
counts as `datetime.min`), then applies the strategy. -/
def get_account (pool : List ProviderAccount) (now : Nat)
    (strategy : PoolStrategy) : Option ProviderAccount :=
  if pool = [] then none
  else
    let available := pool.filter
      (fun acc => acc.is_healthy && !(acc.is_rate_limited now))
    let available :=
      if available = [] then
        pySortBy (fun a b =>
          (a.rate_limit_reset.getD 0) ≥ (b.rate_limit_reset.getD 0)) pool
      else available
    if available = [] then none
    else
      match strategy with
      | .round_robin =>
          (pySortBy (fun a b => (a.last_used.getD 0) ≤ (b.last_used.getD 0))
            available).head?
      | .least_used =>
          (pySortBy (fun a b => a.requests_count ≤ b.requests_count)
            available).head?
      | .random idx => available.get? (idx % available.length)

/-! ## skill_weighting.py -/

/-- One role's entry of `ROLE_SKILL_MAPPING` (or the mapping returned by the
LLM extractor): primary and secondary skill-relevance tables. -/
structure RoleMapping where
  primary : List (String × Rat) := []
  secondary : List (String × Rat) := []
  weight_ratio : Rat := 8/10
  deriving DecidableEq, Repr

/-- `ROLE_SKILL_MAPPING["backend-developer"]` from skill_weighting.py. -/
def backendDeveloperMapping : RoleMapping where
  primary := [("Java", 9/10), ("Python", 9/10), ("Node.js", 8/10),
    ("Spring", 85/100), ("Django", 8/10), ("Database", 9/10), ("SQL", 85/100),
    ("REST API", 9/10), ("Microservices", 8/10), ("Docker", 7/10),
    ("Kubernetes", 7/10)]
  secondary := [("React", 2/10), ("JavaScript", 5/10), ("TypeScript", 4/10),
    ("GraphQL", 6/10), ("Redis", 7/10), ("MongoDB", 6/10)]
  weight_ratio := 8/10

/-- The `resume_skills` dict built inside `calculate_skill_weights`:
skills from the résumé skill list (years, number of project refs), then a
project count bump for each project technology, then a year bump for each
experience skill.  Insertion-ordered like the Python dict. -/
def buildResumeSkills (resume_data : ResumeData) : List (String × (Rat × Nat)) :=
  let fromSkills := resume_data.skills.foldl
    (fun d sk => alSet d sk.name (sk.years, sk.projects.length)) []
  let fromProjects := resume_data.projects.foldl
    (fun d p => p.technologies.foldl
      (fun d tech =>
        let cur := (alGet d tech).getD (0, 0)
        alSet d tech (cur.1, cur.2 + 1)) d)
    fromSkills
  resume_data.experience.foldl
    (fun d exp => exp.skills_used.foldl
      (fun d sk =>
        let cur := (alGet d sk).getD (0, 0)
        alSet d sk (cur.1 + 1, cur.2)) d)
    fromProjects

/-- `calculate_skill_weights(role, resume_data, max_years, max_projects)`.
The role mapping (LLM-extracted or the hardcoded fallback) is resolved
upstream and passed in.  When the résumé contributes no skills the records
come straight from the role tables; otherwise each résumé skill gets
`0.5*role_relevance + 0.3*resume_experience + 0.2*project_count`.  The
result is sorted by weight descending (stable). -/
def calculate_skill_weights (role_mapping : RoleMapping)
    (resume_data : ResumeData) (max_years : Rat := 5)
    (max_projects : Nat := 5) : List SkillWeight :=
  let primary_skills := role_mapping.primary
  let secondary_skills := role_mapping.secondary
  let resume_skills := buildResumeSkills resume_data
  let skill_weights :=
    if resume_skills = [] then
      primary_skills.map (fun pr =>
        { skill := pr.1, weight := pr.2, role_relevance := pr.2,
          resume_experience := 0, project_count := 0 : SkillWeight }) ++
      secondary_skills.map (fun pr =>
        { skill := pr.1, weight := pr.2 * (5/10), role_relevance := pr.2,
          resume_experience := 0, project_count := 0 : SkillWeight })
    else
      resume_skills.map (fun entry =>
        let skill_name := entry.1
        let role_relevance :=
          match alGet primary_skills skill_name with
          | some r => r
          | none =>
            match alGet secondary_skills skill_name with
            | some r => r
            | none => 1/10
        let resume_experience := min (entry.2.1 / max_years) 1
        let project_count := min ((entry.2.2 : Rat) / (max_projects : Rat)) 1
        let weight := role_relevance * (5/10) + resume_experience * (3/10) +
          project_count * (2/10)
        { skill := skill_name, weight := weight,
          role_relevance := role_relevance,
          resume_experience := resume_experience,
          project_count := project_count : SkillWeight })
  pySortBy (fun a b => a.weight ≥ b.weight) skill_weights

/-! ## report_generator.py -/

/-- The `all_scores` list collected by `calculate_overall_score`: every
evaluation score recorded under `answered_skills`, in order. -/
def reportAllScores (state : InterviewState) : List Rat :=
  state.answered_skills.flatMap (fun entry => entry.2.map (fun e => e.score))

/-- The `base_score` of `calculate_overall_score`: the mean of all recorded
evaluation scores (`0.0` with no scores, as in the early return). -/
def reportBaseScore (state : InterviewState) : Rat :=
  let all_scores := reportAllScores state
  if all_scores = [] then 0 else all_scores.sum / all_scores.length

/-- The `completion_ratio` of `calculate_overall_score`:
`min(1.0, questions_answered / expected_questions)` with
`questions_answered = len(questions_asked)` and
`expected_questions = state.total_questions or 15`. -/
def reportCompletionRatio (state : InterviewState) : Rat :=
  let questions_answered : Nat := state.questions_asked.length
  let expected_questions : Nat :=
    if state.total_questions ≠ 0 then state.total_questions else 15
  if 0 < expected_questions then
    min 1 ((questions_answered : Rat) / (expected_questions : Rat))
  else 0

/-- `calculate_overall_score(state)`: mean of all evaluation scores scaled
by the completion ratio, with extra caps for very incomplete interviews
(the base score and completion ratio are the named sub-computations). -/
def calculate_overall_score (state : InterviewState) : Rat :=
  let all_scores := reportAllScores state
  if all_scores = [] then 0
  else
    let base_score := reportBaseScore state
    let completion_ratio := reportCompletionRatio state
    let adjusted_score := base_score * completion_ratio
    let adjusted_score :=
      if completion_ratio < 5/10 then min adjusted_score (base_score * (6/10))
      else if completion_ratio < 75/100 then
        min adjusted_score (base_score * (8/10))
      else adjusted_score
    min adjusted_score base_score

/-- The report payload fields of `generate_interview_report` that the
claims inspect.  `overall_score = none` models JSON `null`. -/
structure ReportData where
  overall_score : Option Rat
  recommendation : String
  questions_answered : Nat
  is_complete : Bool
  deriving DecidableEq, Repr

/-- The Firestore document written for a report (`report_doc`). -/
structure ReportDoc where
  report_id : String
  interview_id : String
  user_id : String
  report_data : ReportData
  deriving DecidableEq, Repr

/-- The externally visible effects of one `generate_interview_report` call:
whether the LLM narrative generator ran, the durable write that was issued,
the `report_id` patch applied to the session, and the returned value. -/
structure ReportEffects where
  llmCalled : Bool
  firestoreWrite : Option ReportDoc
  patchedReportId : Option String
  result : Option ReportData
  deriving DecidableEq, Repr

/-- The oracle for `generate_interview_report`'s external collaborators:
the generated report id, whether the Firestore write succeeds, and the
LLM / post-processing outcome of the answered-questions branch. -/
structure ReportOracle where
  reportId : String
  firestoreWriteOk : Bool
  llmBranchReport : ReportData
  llmBranchPatched : Option String

/-- `generate_interview_report(interview_id, state, user_profile)` as its
effect trace.  With zero entries in `questions_asked` it builds the fixed
"no assessment" report without calling the LLM, writes it durably and —
when the write succeeds — patches the session with the report id.  The
answered-questions branch calls the LLM; its merged output is abstracted
by the oracle. -/
def generate_interview_report (o : ReportOracle) (interview_id : String)
    (state : InterviewState) : ReportEffects :=
  let questions_answered := state.questions_asked.length
  if questions_answered = 0 then
    let report_data : ReportData :=
      { overall_score := none, recommendation := "no_assessment",
        questions_answered := 0, is_complete := false }
    let report_doc : ReportDoc :=
      { report_id := o.reportId, interview_id := interview_id,
        user_id := state.user_id, report_data := report_data }
    if o.firestoreWriteOk then
      { llmCalled := false, firestoreWrite := some report_doc,
        patchedReportId := some o.reportId, result := some report_data }
    else
      { llmCalled := false, firestoreWrite := some report_doc,
        patchedReportId := none, result := none }
  else
    { llmCalled := true,
      firestoreWrite := some
        { report_id := o.reportId, interview_id := interview_id,
          user_id := state.user_id, report_data := o.llmBranchReport },
      patchedReportId := o.llmBranchPatched,
      result := if o.firestoreWriteOk then some o.llmBranchReport else none }

/-! ## phased_flow.py -/

/-- `.name` of a `DifficultyLevel` member. -/
def DifficultyLevel.enumName : DifficultyLevel → String
  | .basic => "BASIC"
  | .intermediate => "INTERMEDIATE"
  | .advanced => "ADVANCED"
  | .expert => "EXPERT"

/-- `is_graduate_role(role)` from phased_flow.py. -/
def is_graduate_role (role : String) : Bool :=
  ["graduate", "graduate-data-engineer", "graduate-data-scientist"].contains role

/-- The explicit non-coding keyword list of `is_technical_role`. -/
def nonCodingKeywordsTechnicalRole : List String :=
  ["product-manager", "product manager", "tester", "qa", "quality-assurance",
   "test-engineer"]

/-- `is_technical_role(state)` from phased_flow.py. -/
def is_technical_role (s : InterviewState) : Bool :=
  let role_lower := pyStrip (pyToLower s.role)
  if nonCodingKeywordsTechnicalRole.any (fun k => pyIn k role_lower) then false
  else if (["developer", "engineer", "programmer", "scientist",
      "architect"].any (fun k => pyIn k role_lower)) then true
  else true

/-- `obvious_tech_patterns` from `is_technology_skill`. -/
def obviousTechPatterns : List String :=
  ["javascript", "js", "node.js", "nodejs", "python", "java", "react",
   "react.js", "angular", "vue", "vue.js", "typescript", "html", "css",
   "sql", "mongodb", "postgresql", "mysql", "redis", "aws", "azure",
   "docker", "kubernetes", "express", "django", "flask", "spring",
   "spring boot", "next.js", "nextjs", "graphql", "rest api", "api", "git",
   "github", "ci/cd", "jenkins", "terraform", "ansible", "nginx", "apache",
   "linux", "unix", "bash", "shell scripting", "powershell", "ruby", "php",
   "go", "golang", "rust", "c++", "c#", "swift", "kotlin", "scala", "r",
   "matlab", "perl"]

/-- `is_technology_skill(skill)` from phased_flow.py: substring membership
of any pattern in the lower-cased skill. -/
def is_technology_skill (skill : String) : Bool :=
  let skill_lower := pyStrip (pyToLower skill)
  obviousTechPatterns.any (fun tech => pyIn tech skill_lower)

/-- The non-coding keyword list inside `should_ask_coding_question`
(`"product-manager"` really appears twice in the source). -/
def nonCodingKeywordsShouldAsk : List String :=
  ["product-manager", "product manager", "product-manager", "tester", "qa",
   "quality-assurance", "test-engineer"]

/-- `experience_years_map.get(level, 0)` from `should_ask_coding_question`. -/
def experienceYearsMap (lvl : String) : Rat :=
  if lvl = "entry" then 1
  else if lvl = "mid" then 35/10
  else if lvl = "senior" then 8
  else if lvl = "executive" then 12
  else 0

/-- `should_ask_coding_question(state, target_skill)`.  `u` is the draw of
`random.uniform` that perturbs the target percentage. -/
def should_ask_coding_question (u : Rat) (s : InterviewState)
    (target_skill : Option String) : Bool :=
  let techBlock := match target_skill with
    | some t => is_technology_skill t
    | none => false
  if techBlock then false
  else
    let recent_coding_questions :=
      (s.questions_asked.drop (s.questions_asked.length - 5)).filter
        (fun q => q.type = QuestionType.coding)
    let recent_coding_struggles := (recent_coding_questions.filter (fun q =>
      match alGet s.answered_skills q.skill with
      | some skill_evals =>
          match skill_evals.getLast? with
          | some last_eval => decide (last_eval.score < 4/10)
          | none => false
      | none => false)).length
    if recent_coding_struggles ≥ 2 then false
    else
      let role_lower := pyStrip (pyToLower s.role)
      if nonCodingKeywordsShouldAsk.any (fun k => pyIn k role_lower) then false
      else
        let total_questions := s.questions_asked.length
        let coding_questions :=
          (s.questions_asked.filter (fun q => q.type = QuestionType.coding)).length
        if total_questions = 0 then false
        else
          let coding_percentage : Rat :=
            (coding_questions : Rat) / (total_questions : Rat)
          let fallback :=
            if is_graduate_role s.role then
              decide (coding_percentage < 55/100 + u)
            else decide (coding_percentage < 25/100 + u)
          if (s.experience_level.getD "") ≠ "" then
            let lvl := s.experience_level.getD ""
            let years := experienceYearsMap lvl
            if years ≥ 4 then false
            else if lvl = "entry" then decide (coding_percentage < 55/100 + u)
            else if lvl = "mid" then decide (coding_percentage < 25/100 + u)
            else fallback
          else fallback

/-- The adaptive coding-difficulty adjustment repeated at phased_flow.py
lines 494-507, 596-606 and 684-697: after a last score `≥ 0.8` on the
target skill it constructs `DifficultyLevel(min(difficulty.value + 1, 5))`;
after `< 0.5` it constructs `DifficultyLevel(max(difficulty.value - 1, 1))`.
`none` models the `ValueError` of an out-of-range constructor call. -/
def adaptiveCodingDifficulty (answered_skills : List (String × List Evaluation))
    (target_skill : String) (difficulty : DifficultyLevel) :
    Option DifficultyLevel :=
  match alGet answered_skills target_skill with
  | some previous_answers =>
      match previous_answers.getLast? with
      | some last =>
          if last.score ≥ 8/10 then difficultyFromInt (min (difficulty.value + 1) 5)
          else if last.score < 5/10 then
            difficultyFromInt (max (difficulty.value - 1) 1)
          else some difficulty
      | none => some difficulty
  | none => some difficulty

/-- The non-coding difficulty adjustment of the role_skills branch
(phased_flow.py lines 668-677): `min(difficulty.value + 1, 4)` after a last
score `≥ 0.8`, `max(difficulty.value - 1, 1)` after `< 0.6`. -/
def roleSkillDifficultyAdjust (answered_skills : List (String × List Evaluation))
    (target_skill : String) (difficulty : DifficultyLevel) :
    Option DifficultyLevel :=
  match alGet answered_skills target_skill with
  | some evaluations =>
      match evaluations.getLast? with
      | some last =>
          if last.score ≥ 8/10 then difficultyFromInt (min (difficulty.value + 1) 4)
          else if last.score < 6/10 then
            difficultyFromInt (max (difficulty.value - 1) 1)
          else some difficulty
      | none => some difficulty
  | none => some difficulty

/-- The lower-case aliases of the problem-solving skill. -/
def problemSolvingNames : List String :=
  ["problem-solving", "problem solving", "problem_solving"]

/-- The outcome of `select_next_question_phased`: `ok none` is the
"interview complete" return, `ok (some q)` the next question, and `exn` an
exception escaping the call (e.g. a `ValueError` from `DifficultyLevel`). -/
inductive SelectOut
  | ok (q : Option Question)
  | exn
  deriving DecidableEq, Repr

/-- The oracle for the external collaborators of
`select_next_question_phased`: the clock comparison of the time cut, the
`random.uniform` draws of the coding gate, the texts and ids produced by
the LLM generators, the question-pool draw (`none` also covers a skill not
in the pool) and the conversational-transition outcome (`none` models the
caught exception). -/
structure SelectOracle where
  timeUp : Bool := false
  uInject : Rat := 0
  uMain : Rat := 0
  qid : String := "q"
  introText : String := "intro"
  projText : Bool → String → String := fun _ _ => "proj"
  codingQ : String → DifficultyLevel → Question :=
    fun sk d => { question_id := "cq", question := "coding", skill := sk,
                  difficulty := d, type := QuestionType.coding }
  dynamicQ : String → DifficultyLevel → Question :=
    fun sk d => { question_id := "dq", question := "dynamic", skill := sk,
                  difficulty := d, type := QuestionType.conceptual }
  poolQ : String → DifficultyLevel → List String → Option String :=
    fun _ _ _ => none
  transitionResult : Option String := none

/-- `generate_intro_question(state, candidate_name)` as the `Question`
object it constructs (its text comes from the LLM oracle). -/
def generate_intro_question (o : SelectOracle) : Question :=
  { question_id := o.qid, question := o.introText, skill := "Introduction",
    difficulty := DifficultyLevel.basic, type := QuestionType.conceptual,
    context := some { phase := some "introduction", source := some "dynamic" } }

/-- `generate_project_question(project, ..., is_deep_dive, ...)` as the
`Question` object it constructs. -/
def generate_project_question (o : SelectOracle) (p : ResumeProject)
    (difficulty : DifficultyLevel) (is_deep_dive : Bool) : Question :=
  { question_id := o.qid, question := o.projText is_deep_dive p.name,
    skill := p.name ++ (if is_deep_dive then " (Deep Dive)"
      else " (Project Overview)"),
    difficulty := difficulty, type := QuestionType.practical,
    context := some { project := some p.name, phase := some "projects",
                      source := some "dynamic_project",
                      question_type := some (if is_deep_dive then "deep_dive"
                        else "high_level") } }

/-- The number of technologies of a project that overlap the session's
skill-weight table (the `key` of the project `max` in the projects phase). -/
def countRelevantTech (p : ResumeProject) (sws : List SkillWeight) : Nat :=
  (p.technologies.filter (fun t => sws.any (fun sw =>
    pyIn (pyToLower sw.skill) (pyToLower t) ||
      pyIn (pyToLower t) (pyToLower sw.skill)))).length

/-- The question of the last asked question whose context names `name`
(the reversed scan of `questions_asked` in the projects branch). -/
def lastProjectQuestion (s : InterviewState) (name : String) : Option Question :=
  s.questions_asked.reverse.find? (fun q =>
    match q.context with
    | some c => c.project = some name
    | none => false)

/-- The time cut at the top of `select_next_question_phased`: with
`started_at` set and the elapsed time at or past the duration, `None` is
returned before any phase logic runs. -/
def selectTimeCheck (o : SelectOracle)
    (k : InterviewState → InterviewState × SelectOut)
    (s : InterviewState) : InterviewState × SelectOut :=
  if s.started_at.isSome && o.timeUp then (s, SelectOut.ok none) else k s

/-- The pool-then-dynamic tail shared by the standout_skills and
role_skills branches: consult the curated pool unless the session is
configured LLM-only, otherwise generate dynamically, attach the
conversational transition when this is not the first question, and stamp
the phase/source context. -/
def selectSkillQuestionTail (o : SelectOracle) (s : InterviewState)
    (target_skill : String) (difficulty : DifficultyLevel)
    (phaseLabel : String) (poolType : QuestionType) :
    InterviewState × SelectOut :=
  let use_llm_for_all := s.use_llm_for_all_questions
  let used_questions := (s.questions_asked.filter
    (fun q => q.skill = target_skill)).map (fun q => q.question)
  let pool_question :=
    if !use_llm_for_all then o.poolQ target_skill difficulty used_questions
    else none
  match pool_question with
  | some ptext =>
      (s, SelectOut.ok (some
        { question_id := o.qid, question := ptext, skill := target_skill,
          difficulty := difficulty, type := poolType,
          context := some { phase := some phaseLabel, source := some "pool" } }))
  | none =>
      let q := o.dynamicQ target_skill difficulty
      let q :=
        if s.questions_asked ≠ [] then
          match o.transitionResult with
          | some t =>
              let c := q.context.getD {}
              { q with context := some { c with transition := some t } }
          | none => q
        else q
      let c2 := q.context.getD {}
      let c2 := { c2 with phase := some phaseLabel, source := some "dynamic" }
      let q := { q with context := some c2 }
      (s, SelectOut.ok (some q))

/-- The regular (non-injected) part of the role_skills branch
(phased_flow.py lines 624-760): eligible skills by role relevance, per-skill
question budgets, selection by `0.6*role_relevance + 0.4*weight`, difficulty
adjustment, coding gating, pool/dynamic generation. -/
def selectRoleSkillsRegular (o : SelectOracle) (s : InterviewState) :
    InterviewState × SelectOut :=
  let role_skills := s.skill_weights.filter
    (fun sw => sw.role_relevance > 3/10)
  let role_skills := pySortBy (fun a b => a.weight ≥ b.weight) role_skills
  let role_skills :=
    if role_skills = [] then
      pySortBy (fun a b => a.weight ≥ b.weight) s.skill_weights
    else role_skills
  let skills_needing_questions := role_skills.filter (fun sw =>
    let answered_count := ((alGet s.answered_skills sw.skill).getD []).length
    let base_questions : Int := max 1 (pyTrunc (sw.weight * 4))
    let expected_questions : Int := min base_questions 2
    decide ((answered_count : Int) < expected_questions))
  match skills_needing_questions with
  | [] => (s, SelectOut.ok none)
  | x :: xs =>
    let target_skill_data := pyMaxBy (fun a b =>
      decide (a.role_relevance * (6/10) + a.weight * (4/10) >
        b.role_relevance * (6/10) + b.weight * (4/10))) x xs
    let target_skill := target_skill_data.skill
    let s1 := { s with current_skill := some target_skill }
    match roleSkillDifficultyAdjust s1.answered_skills target_skill
        s1.current_difficulty with
    | none => (s1, SelectOut.exn)
    | some difficulty =>
      if should_ask_coding_question o.uMain s1 (some target_skill) then
        match adaptiveCodingDifficulty s1.answered_skills target_skill
            difficulty with
        | none => (s1, SelectOut.exn)
        | some coding_difficulty =>
            let q := o.codingQ target_skill coding_difficulty
            let q := { q with context := some {
              phase := some "role_skills", source := some "coding",
              adaptive_difficulty := some coding_difficulty.enumName } }
            (s1, SelectOut.ok (some q))
      else
        selectSkillQuestionTail o s1 target_skill difficulty "role_skills"
          (if difficulty.value ≥ 3 then QuestionType.practical
            else QuestionType.conceptual)

/-- The role_skills branch of `select_next_question_phased`
(phased_flow.py lines 569-760): the problem-solving coding injection for
technical roles, falling through to the regular selection. -/
def selectRoleSkills (o : SelectOracle) (s : InterviewState) :
    InterviewState × SelectOut :=
  let phase_count := s.phase_questions InterviewPhase.role_skills
  if phase_count ≥ 6 then (s, SelectOut.ok none)
  else if is_technical_role s then
    let problem_solving_asked := (s.questions_asked.filter
      (fun q => problemSolvingNames.contains (pyToLower q.skill))).length
    let should_ask_problem_solving :=
      (problem_solving_asked = 0 && phase_count ≥ 2) ||
      (problem_solving_asked = 1 && phase_count ≥ 4 && phase_count < 6)
    if should_ask_problem_solving then
      if should_ask_coding_question o.uInject s (some "problem-solving") then
        match adaptiveCodingDifficulty s.answered_skills "problem-solving"
            s.current_difficulty with
        | none => (s, SelectOut.exn)
        | some d =>
            let q := o.codingQ "problem-solving" d
            let ctx : QuestionContext :=
              { phase := some "role_skills",
                source := some "problem_solving_coding",
                adaptive_difficulty := some d.enumName, injected := true }
            let q := { q with context := some ctx }
            ({ s with current_skill := some "problem-solving" },
              SelectOut.ok (some q))
      else selectRoleSkillsRegular o s
    else selectRoleSkillsRegular o s
  else selectRoleSkillsRegular o s

/-- The first standout filter (phased_flow.py lines 451-454): weight at
least 0.5, not yet answered, with résumé experience. -/
def standoutPrimaryFilter (s : InterviewState) : List SkillWeight :=
  s.skill_weights.filter (fun sw =>
    sw.weight ≥ 5/10 && !(alMem s.answered_skills sw.skill) &&
    sw.resume_experience > 0)

/-- The fallback standout filter (phased_flow.py lines 457-461): weight at
least 0.6, not yet answered. -/
def standoutFallbackFilter (s : InterviewState) : List SkillWeight :=
  s.skill_weights.filter (fun sw =>
    sw.weight ≥ 6/10 && !(alMem s.answered_skills sw.skill))

/-- The `key` of the standout `max`: the lexicographic Python tuple
`(resume_experience, weight)` compared strictly. -/
def standoutKeyGt (a b : SkillWeight) : Bool :=
  decide (a.resume_experience > b.resume_experience) ||
  (decide (a.resume_experience = b.resume_experience) &&
    decide (a.weight > b.weight))

/-- The standout_skills branch of `select_next_question_phased`
(phased_flow.py lines 441-566).  Phase advancement re-enters the selector,
which re-applies the time cut before the next branch. -/
def selectStandoutSkills (o : SelectOracle) (s : InterviewState) :
    InterviewState × SelectOut :=
  let phase_count := s.phase_questions InterviewPhase.standout_skills
  if phase_count ≥ 4 then
    let pq1 := updPQ s.phase_questions InterviewPhase.standout_skills phase_count
    let s1 := { s with current_phase := InterviewPhase.role_skills, phase_questions := pq1 }
    selectTimeCheck o (selectRoleSkills o) s1
  else
    let standout_skills := standoutPrimaryFilter s
    let standout_skills :=
      if standout_skills = [] then standoutFallbackFilter s
      else standout_skills
    match standout_skills with
    | [] =>
        let pq1 := updPQ s.phase_questions InterviewPhase.standout_skills phase_count
        let s1 := { s with current_phase := InterviewPhase.role_skills, phase_questions := pq1 }
        selectTimeCheck o (selectRoleSkills o) s1
    | x :: xs =>
        let target_skill_data := pyMaxBy standoutKeyGt x xs
        let target_skill := target_skill_data.skill
        let s1 := { s with current_skill := some target_skill }
        let difficulty := s1.current_difficulty
        let is_problem_solving := problemSolvingNames.contains (pyToLower target_skill)
        let ask_coding := should_ask_coding_question o.uMain s1
          (some (if is_problem_solving then "problem-solving" else target_skill))
        if ask_coding then
          match adaptiveCodingDifficulty s1.answered_skills target_skill
              difficulty with
          | none => (s1, SelectOut.exn)
          | some coding_difficulty =>
              (s1, SelectOut.ok (some (o.codingQ target_skill coding_difficulty)))
        else
          selectSkillQuestionTail o s1 target_skill difficulty "standout_skills"
            (if difficulty.value ≥ 3 then QuestionType.practical
              else QuestionType.conceptual)

/-- The projects branch of `select_next_question_phased` (phased_flow.py
lines 365-439).  `exn` models the `AttributeError` raised when a project
queued for deep-dive is no longer found among the résumé projects. -/
def selectProjects (o : SelectOracle) (s : InterviewState) :
    InterviewState × SelectOut :=
  let phase_count := s.phase_questions InterviewPhase.projects
  if phase_count ≥ 4 then
    let pq1 := updPQ s.phase_questions InterviewPhase.projects phase_count
    let s1 := { s with current_phase := InterviewPhase.standout_skills, phase_questions := pq1 }
    selectTimeCheck o (selectStandoutSkills o) s1
  else
    let projects_needing_deep_dive := (s.answered_projects.filter (fun entry =>
      entry.2 ≠ [] && entry.2.length = 1 &&
      (match lastProjectQuestion s entry.1 with
       | some q => (q.context.bind (fun c => c.question_type)) = some "high_level"
       | none => false))).map (fun entry => entry.1)
    match projects_needing_deep_dive with
    | target_project_name :: _ =>
        match s.resume_data.projects.find?
            (fun p => p.name = target_project_name) with
        | some p =>
            let s1 := { s with current_project := some p.name }
            (s1, SelectOut.ok (some
              (generate_project_question o p s1.current_difficulty true)))
        | none => (s, SelectOut.exn)
    | [] =>
        let asked_projects := s.answered_projects.map (fun entry => entry.1)
        let available_projects := s.resume_data.projects.filter
          (fun p => !(asked_projects.contains p.name))
        match available_projects with
        | [] =>
            let pq1 := updPQ s.phase_questions InterviewPhase.projects phase_count
            let s1 := { s with current_phase := InterviewPhase.standout_skills, phase_questions := pq1 }
            selectTimeCheck o (selectStandoutSkills o) s1
        | p0 :: rest =>
            let target_project := pyMaxBy (fun a b =>
              decide (countRelevantTech a s.skill_weights >
                countRelevantTech b s.skill_weights)) p0 rest
            let s1 := { s with current_project := some target_project.name }
            (s1, SelectOut.ok (some (generate_project_question o target_project
              s1.current_difficulty false)))

/-- The introduction branch of `select_next_question_phased`
(phased_flow.py lines 352-363): the single greeting question is generated
and pre-counted into `phase_questions["introduction"]` when it is produced. -/
def selectIntroduction (o : SelectOracle) (s : InterviewState) :
    InterviewState × SelectOut :=
  let phase_count := s.phase_questions InterviewPhase.introduction
  if phase_count ≥ 1 then
    let pq1 := updPQ s.phase_questions InterviewPhase.introduction phase_count
    let s1 := { s with current_phase := InterviewPhase.projects, phase_questions := pq1 }
    selectTimeCheck o (selectProjects o) s1
  else
    let pq1 := updPQ s.phase_questions InterviewPhase.introduction 1
    let s1 := { s with phase_questions := pq1 }
    (s1, SelectOut.ok (some (generate_intro_question o)))

/-- `select_next_question_phased(state, last_evaluation, candidate_name)`:
time cut, then the branch of the current phase. -/
def select_next_question_phased (o : SelectOracle) (s : InterviewState) :
    InterviewState × SelectOut :=
  selectTimeCheck o
    (fun s1 =>
      match s1.current_phase with
      | InterviewPhase.introduction => selectIntroduction o s1
      | InterviewPhase.projects => selectProjects o s1
      | InterviewPhase.standout_skills => selectStandoutSkills o s1
      | InterviewPhase.role_skills => selectRoleSkills o s1)
    s

/-- `update_phase_question_count(state)` from phased_flow.py. -/
def update_phase_question_count (s : InterviewState) : InterviewState :=
  let pq1 := updPQ s.phase_questions s.current_phase (s.phase_questions s.current_phase + 1)
  { s with phase_questions := pq1 }

/-! ## websocket_handler.py -/

/-- The payload of a `submit_answer` / `answer` message
(`answer_data.get("answer"/"code"/"language", "")`). -/
structure AnswerData where
  answer : String := ""
  code : String := ""
  language : String := ""
  deriving DecidableEq, Repr

/-- The oracle for `handle_answer_submission`'s external collaborators:
the selector oracle, the outcome of `evaluate_answer` (`none` models an
exception caught by `asyncio.gather`), and the handler's own time-limit
clock comparison. -/
structure HandleOracle where
  sel : SelectOracle := {}
  evalResult : Option Evaluation := none
  timeUpHandle : Bool := false

/-- The value returned to the socket loop by `handle_answer_submission`. -/
inductive HandleResult
  | error (msg : String)
  | completed (evaluation : Evaluation)
  | answer_response (evaluation : Evaluation) (next_question : Question)
  deriving DecidableEq, Repr

/-- Lines 573-582 of websocket_handler.py: append the evaluation to the
answered projects (when a current project is set) and to the answered
skills of the answered question. -/
def recordEvaluation (s1 : InterviewState) (current_question : Question)
    (evaluation : Evaluation) : InterviewState :=
  let s2 :=
    if (s1.current_project.getD "") ≠ "" then
      let ap := alAppendAt s1.answered_projects (s1.current_project.getD "")
        evaluation
      { s1 with answered_projects := ap }
    else s1
  if current_question.skill ≠ "" then
    let ak := alAppendAt s2.answered_skills current_question.skill evaluation
    { s2 with answered_skills := ak }
  else s2

/-- Lines 584-601 of websocket_handler.py: bump the phase count, adopt the
evaluation's next difficulty, bump `total_questions`, append the answered
question to the history and the qa pair to the bounded conversation
window. -/
def applyTurnCounters (s3 : InterviewState) (current_question : Question)
    (answer_text : String) (evaluation : Evaluation) : InterviewState :=
  let s4 := update_phase_question_count s3
  let s5 := { s4 with current_difficulty := evaluation.next_difficulty,
                      total_questions := s4.total_questions + 1,
                      questions_asked := s4.questions_asked ++ [current_question] }
  let qa_pair : QAPair :=
    { question := current_question.question,
      question_id := current_question.question_id,
      skill := current_question.skill, answer := answer_text,
      evaluation := evaluation }
  let history := s5.conversation_history ++ [qa_pair]
  let history :=
    if history.length > s5.max_context_pairs then
      history.drop (history.length - s5.max_context_pairs)
    else history
  { s5 with conversation_history := history }

/-- Lines 629-639 of websocket_handler.py: install the next question,
update the current skill and project, and move to ai_speaking. -/
def setNextQuestion (s6 : InterviewState) (nq : Question) : InterviewState :=
  let s7 := { s6 with current_question := some nq,
                      current_skill := some nq.skill }
  let s7 :=
    if s7.current_phase = InterviewPhase.projects &&
        ((nq.context.bind (fun c => c.project)).getD "") ≠ "" then
      { s7 with current_project := nq.context.bind (fun c => c.project) }
    else if s7.current_phase ≠ InterviewPhase.projects then
      { s7 with current_project := none }
    else s7
  { s7 with flow_state := InterviewFlowState.ai_speaking }

/-- The part of `handle_answer_submission` after the answer-length
validation succeeded: flow state to ai_thinking (persisted), transcript
accumulator cleared, evaluation and next-question selection run together,
state counters and history updated, completion decided.  Returns the
result, the final state persisted to the store, and the accumulator. -/
def handleAnswerCore (o : HandleOracle) (state : InterviewState)
    (current_question : Question) (answer_text : String) :
    HandleResult × Option InterviewState × String :=
  let sThinking := { state with flow_state := InterviewFlowState.ai_thinking }
  let acc1 := ""
  let sel := select_next_question_phased o.sel sThinking
  match o.evalResult with
  | none => (HandleResult.error "Error evaluating answer", some sThinking, acc1)
  | some evaluation =>
    let s3 := recordEvaluation sel.1 current_question evaluation
    let s6 := applyTurnCounters s3 current_question answer_text evaluation
    let time_limit_reached := s6.started_at.isSome && o.timeUpHandle
    let next_question := match sel.2 with
      | SelectOut.ok q => q
      | SelectOut.exn => none
    match next_question with
    | none =>
        (HandleResult.completed evaluation,
         some { s6 with flow_state := InterviewFlowState.interview_complete },
         acc1)
    | some nq =>
        if time_limit_reached then
          (HandleResult.completed evaluation,
           some { s6 with flow_state := InterviewFlowState.interview_complete },
           acc1)
        else
          (HandleResult.answer_response evaluation nq,
           some (setNextQuestion s6 nq), acc1)

/-- `handle_answer_submission(interview_id, answer_data)`.  `stateLoaded`
is what `load_interview_state` returned and `acc` the handler's transcript
accumulator for the session.  Returns the result sent back, the state as
persisted after the call, and the accumulator after the call. -/
def handle_answer_submission (o : HandleOracle)
    (stateLoaded : Option InterviewState) (acc : String)
    (answer_data : AnswerData) : HandleResult × Option InterviewState × String :=
  match stateLoaded with
  | none =>
      (HandleResult.error "Interview not found or no current question",
        none, acc)
  | some state =>
    match state.current_question with
    | none =>
        (HandleResult.error "Interview not found or no current question",
          some state, acc)
    | some current_question =>
      let answer_text := answer_data.answer
      let code := answer_data.code
      if code ≠ "" && (pyStrip code).length > 0 then
        let answer_text :=
          if answer_text = "" || (pyStrip answer_text).length < 10 then
            "[Code submission in " ++ answer_data.language ++ "]"
          else answer_text
        handleAnswerCore o state current_question answer_text
      else
        let answer_text :=
          if answer_text = "" || (pyStrip answer_text).length < 10 then acc
          else answer_text
        if answer_text = "" || (pyStrip answer_text).length < 10 then
          (HandleResult.error
            "Answer is too short or empty. Please provide a meaningful answer.",
            some state, acc)
        else handleAnswerCore o state current_question answer_text

/-- The state mutation of `handle_audio_chunk` (websocket_handler.py lines
162-187): on a live, non-completed session whose flow state is not
user_speaking, the flow state is snapped to user_speaking and persisted;
nothing else in the session record changes. -/
def audioChunkFlowSnap (s : InterviewState) : InterviewState :=
  if s.status = InterviewStatus.completed ∨
      s.flow_state = InterviewFlowState.interview_complete then s
  else if s.flow_state ≠ InterviewFlowState.user_speaking then
    { s with flow_state := InterviewFlowState.user_speaking }
  else s

/-! ## main.py: session start and the WebSocket connect prologue -/

/-- `create_interview_state(user_id, role, resume_data, skill_weights,
max_questions)` from interview_state.py (the deterministic record; the
generated `interview_id` is passed in). -/
def create_interview_state (interview_id user_id role : String)
    (resume_data : ResumeData) (skill_weights : List SkillWeight)
    (max_questions : Nat := 15) : InterviewState :=
  { interview_id := interview_id, user_id := user_id, role := role,
    status := InterviewStatus.not_started,
    current_phase := InterviewPhase.introduction,
    flow_state := InterviewFlowState.user_waiting,
    resume_data := resume_data, skill_weights := skill_weights,
    current_difficulty := DifficultyLevel.basic,
    max_questions := max_questions, started_at := none,
    phase_questions := fun _ => 0, interview_duration_minutes := 30,
    conversation_history := [], max_context_pairs := 5 }

/-- The state-building core of `start_interview_endpoint` (main.py lines
769-832): create the session, generate the first question through the
phased selector, attach it, then `start_interview` marks the session
in_progress with `started_at = now`.  `none` models the HTTP 500 raised
when no first question is produced. -/
def startInterviewSession (o : SelectOracle) (interview_id user_id role : String)
    (resume_data : ResumeData) (skill_weights : List SkillWeight)
    (startTime : Nat) : Option InterviewState :=
  let s := create_interview_state interview_id user_id role resume_data
    skill_weights 15
  match select_next_question_phased o s with
  | (s1, SelectOut.ok (some first_question)) =>
      let s2 := { s1 with current_question := some first_question,
                          current_skill := some first_question.skill }
      let s2 :=
        if s2.current_phase = InterviewPhase.projects &&
            ((first_question.context.bind (fun c => c.project)).getD "") ≠ "" then
          { s2 with current_project :=
                      first_question.context.bind (fun c => c.project) }
        else s2
      some { s2 with status := InterviewStatus.in_progress,
                     started_at := some startTime }
  | _ => none

/-- One message-handler invocation on a session, as seen through the
persisted state: an answer-bearing message (`submit_answer`, `answer`,
`stop_recording`, `speech_end`) routed to `handle_answer_submission`, or
an `audio_chunk` whose only state effect is the flow-state snap. -/
inductive SessionStep
  | answerMsg (o : HandleOracle) (acc : String) (answer_data : AnswerData)
  | audioChunk

/-- The persisted-state transition of one `SessionStep`. -/
def applySessionStep (s : InterviewState) : SessionStep → InterviewState
  | SessionStep.answerMsg o acc answer_data =>
      ((handle_answer_submission o (some s) acc answer_data).2.1).getD s
  | SessionStep.audioChunk => audioChunkFlowSnap s

/-- The close, accept and send actions taken on sockets by the WebSocket
endpoint, in order. -/
inductive WsEvent
  | closeSock (sock : Nat) (code : Nat)
  | acceptSock (sock : Nat)
  | sendMsg (sock : Nat) (msgType : String)
  deriving DecidableEq, Repr

/-- The connect prologue of `websocket_endpoint` (main.py lines 1596-1662):
duplicate detection against the connection registry, rejection with close
code 1008, or (only when the rejection attempt itself raises, i.e. the
existing connection is not even inspectable) replacement — old socket
closed with 1001 — followed by the `connected` welcome message.  Returns
the registry entry for the session after the prologue and the ordered
socket actions. -/
def websocketConnect (registry : Option Nat) (newSock : Nat)
    (rejectAttemptRaises : Bool) : Option Nat × List WsEvent :=
  match registry with
  | some existing =>
      if rejectAttemptRaises = false then
        (some existing, [WsEvent.closeSock newSock 1008])
      else
        (some newSock,
          [WsEvent.acceptSock newSock, WsEvent.closeSock existing 1001,
           WsEvent.sendMsg newSock "connected"])
  | none =>
      (some newSock,
        [WsEvent.acceptSock newSock, WsEvent.sendMsg newSock "connected"])

/-- Equality of the counter-relevant session fields, used to track that
the selector leaves all counters alone. -/
def CountersEq (s1 s : InterviewState) : Prop :=
  s1.phase_questions = s.phase_questions ∧
  s1.total_questions = s.total_questions ∧
  s1.questions_asked = s.questions_asked ∧
  s1.conversation_history = s.conversation_history ∧
  s1.max_context_pairs = s.max_context_pairs

/-- The session counter invariant that actually holds after `/start`:
`total_questions` equals the number of asked questions, the per-phase
counts sum to `total_questions + 1` (the generated introduction question
is pre-counted), the conversation window is bounded, and the introduction
count stays at least 1. -/
def sessionCountersOk (s : InterviewState) : Prop :=
  s.total_questions = s.questions_asked.length ∧
  sumPhaseQuestions s.phase_questions = s.total_questions + 1 ∧
  s.conversation_history.length ≤ s.max_context_pairs ∧
  1 ≤ s.phase_questions InterviewPhase.introduction

/-! ## Concrete instances used by witnesses and counterexamples -/

/-- An evaluation with a given score (the other fields are irrelevant to
the difficulty computation). -/
def evalOfScore (sc : Rat) : Evaluation :=
  { score := sc, next_difficulty := DifficultyLevel.basic }

/-- A concrete question used by concrete session states. -/
def sampleQuestion : Question :=
  { question_id := "q-1", question := "Explain decorators.", skill := "Python",
    difficulty := DifficultyLevel.intermediate, type := QuestionType.conceptual }

/-- A concrete session state with one recorded evaluation and one asked
question. -/
def c4State : InterviewState :=
  { interview_id := "i-1", user_id := "u-1", role := "backend-developer",
    status := InterviewStatus.in_progress, resume_data := {},
    answered_skills := [("Python", [evalOfScore (9/10)])],
    questions_asked := [sampleQuestion], total_questions := 1 }

/-- A provider account that is unhealthy (and therefore never eligible). -/
def unhealthyAccount : ProviderAccount :=
  { api_key := "key-1", is_healthy := false }

/-- The skill-weight record of the soft skill "communication" (weighted
high for the role, no résumé experience). -/
def c6StateSkillWeight : SkillWeight :=
  { skill := "communication", weight := 9/10, role_relevance := 9/10,
    resume_experience := 0, project_count := 0 }

/-- A session in the role_skills phase at EXPERT difficulty whose last
answer on the target skill scored 0.85: the adaptive coding-difficulty
adjustment then constructs `DifficultyLevel(5)`. -/
def c6State : InterviewState :=
  { interview_id := "i-6", user_id := "u-1", role := "backend-developer",
    status := InterviewStatus.in_progress,
    current_phase := InterviewPhase.role_skills, resume_data := {},
    skill_weights := [c6StateSkillWeight],
    answered_skills := [("communication", [evalOfScore (85/100)])],
    current_difficulty := DifficultyLevel.expert,
    questions_asked := [sampleQuestion], total_questions := 1,
    started_at := some 0 }

/-- A session that was started but where no question was ever answered. -/
def c9State : InterviewState :=
  { interview_id := "i-9", user_id := "u-9", role := "backend-developer",
    status := InterviewStatus.completed, resume_data := {},
    questions_asked := [], total_questions := 0 }

/-- A report oracle whose durable write succeeds. -/
def c9Oracle : ReportOracle :=
  { reportId := "r-9", firestoreWriteOk := true,
    llmBranchReport := { overall_score := some (7/10),
                         recommendation := "hire", questions_answered := 3,
                         is_complete := true },
    llmBranchPatched := none }

/-- A session awaiting an answer to its current question. -/
def c10State : InterviewState :=
  { interview_id := "i-10", user_id := "u-10", role := "backend-developer",
    status := InterviewStatus.in_progress, resume_data := {},
    current_question := some sampleQuestion, started_at := some 0 }

/-- Two standout candidates: "alpha" has the most résumé experience,
"beta" the highest weight. -/
def c8State : InterviewState :=
  { interview_id := "i-8", user_id := "u-8", role := "backend-developer",
    status := InterviewStatus.in_progress,
    current_phase := InterviewPhase.standout_skills, resume_data := {},
    skill_weights :=
      [{ skill := "alpha", weight := 6/10, role_relevance := 6/10,
         resume_experience := 9/10, project_count := 0 },
       { skill := "beta", weight := 9/10, role_relevance := 9/10,
         resume_experience := 5/10, project_count := 0 }],
    answered_skills := [], questions_asked := [], total_questions := 0,
    current_difficulty := DifficultyLevel.basic, started_at := some 0 }

/-- A résumé with one skill (ten years of Python across one project). -/
def c7Resume : ResumeData :=
  { skills := [{ name := "Python", years := 10, projects := ["a"] }] }

/-- The single record `calculate_skill_weights` produces for `c7Resume`
under the backend-developer mapping with `max_years = max_projects = 5`:
Python is primary (relevance 0.9), experience caps at 1, the one project
gives 0.2, so the weight is 0.45 + 0.3 + 0.04 = 0.79. -/
def c7SW : SkillWeight :=
  { skill := "Python", weight := 79/100, role_relevance := 9/10,
    resume_experience := 1, project_count := 1/5 }

/-- The state persisted by a successful `/interviews/start` on a fresh
session with an empty résumé: the introduction question is generated and
already pre-counted in `phase_questions`. -/
def c1StartState : InterviewState :=
  { interview_id := "i-1", user_id := "u-1", role := "backend-developer",
    status := InterviewStatus.in_progress,
    current_phase := InterviewPhase.introduction,
    flow_state := InterviewFlowState.user_waiting,
    resume_data := {}, skill_weights := [],
    current_difficulty := DifficultyLevel.basic,
    max_questions := 15,
    phase_questions := updPQ (fun _ => 0) InterviewPhase.introduction 1,
    started_at := some 0,
    current_question := some (generate_intro_question {}),
    current_skill := some "Introduction" }

/-! ## Theorems -/

/-- C2: for every current difficulty and non-empty evaluation list, the
next difficulty of `calculate_smoothed_difficulty` is the deterministic
function of the moving average of the last 3 scores described by the
specification — `avg ≥ 0.8` gives `d+1`, `0.6 ≤ avg < 0.8` gives `d`,
`avg < 0.6` gives `d-1` — clamped to `[1,4]` and within one step of `d`;
in particular the `DifficultyLevel` constructor call never fails. -/
theorem C2_next_difficulty_from_average (d : DifficultyLevel)
    (evals : List Evaluation) (h : evals ≠ []) :
    calculate_smoothed_difficulty d evals 3 =
      some (specNextDifficulty d (calculate_moving_average_scores evals 3)) ∧
    (1 : Int) ≤ (specNextDifficulty d (calculate_moving_average_scores evals 3)).value ∧
    (specNextDifficulty d (calculate_moving_average_scores evals 3)).value ≤ 4 ∧
    |(specNextDifficulty d (calculate_moving_average_scores evals 3)).value - d.value| ≤ 1 := by
  unfold calculate_smoothed_difficulty specNextDifficulty
  rw [if_neg h]
  set avg := calculate_moving_average_scores evals 3 with havg
  rcases d <;>
    by_cases h8 : avg ≥ 8/10 <;> by_cases h6 : avg ≥ 6/10 <;>
      by_cases h4 : avg ≥ 4/10 <;>
        simp [h8, h6, h4, DifficultyLevel.value, difficultyFromInt]

/-- Witness for C2 at a concrete input: three strong answers on an
intermediate question step the difficulty up deterministically. -/
theorem C2_next_difficulty_from_average_witness :
    calculate_smoothed_difficulty DifficultyLevel.intermediate
        [evalOfScore (85/100), evalOfScore (9/10), evalOfScore (88/100)] 3 =
      some (specNextDifficulty DifficultyLevel.intermediate
        (calculate_moving_average_scores
          [evalOfScore (85/100), evalOfScore (9/10), evalOfScore (88/100)] 3)) ∧
    (1 : Int) ≤ (specNextDifficulty DifficultyLevel.intermediate
      (calculate_moving_average_scores
        [evalOfScore (85/100), evalOfScore (9/10), evalOfScore (88/100)] 3)).value ∧
    (specNextDifficulty DifficultyLevel.intermediate
      (calculate_moving_average_scores
        [evalOfScore (85/100), evalOfScore (9/10), evalOfScore (88/100)] 3)).value ≤ 4 ∧
    |(specNextDifficulty DifficultyLevel.intermediate
      (calculate_moving_average_scores
        [evalOfScore (85/100), evalOfScore (9/10), evalOfScore (88/100)] 3)).value -
      DifficultyLevel.intermediate.value| ≤ 1 :=
  C2_next_difficulty_from_average DifficultyLevel.intermediate
    [evalOfScore (85/100), evalOfScore (9/10), evalOfScore (88/100)] (by decide)

/-- C4: with at least one recorded evaluation whose scores respect the
data model's `[0,1]` bound from below, the overall score is at most
`base_score * completion_ratio`, at most `0.6 * base_score` when the
completion ratio is below one half, at most `0.8 * base_score` when it is
below three quarters, and never exceeds the base score. -/
theorem C4_overall_score_caps (s : InterviewState)
    (h : reportAllScores s ≠ [])
    (hnn : ∀ p ∈ s.answered_skills, ∀ e ∈ p.2, 0 ≤ e.score) :
    calculate_overall_score s ≤ reportBaseScore s * reportCompletionRatio s ∧
    (reportCompletionRatio s < 5/10 →
      calculate_overall_score s ≤ (6/10) * reportBaseScore s) ∧
    (reportCompletionRatio s < 75/100 →
      calculate_overall_score s ≤ (8/10) * reportBaseScore s) ∧
    calculate_overall_score s ≤ reportBaseScore s := by
  have hscore : ∀ x ∈ reportAllScores s, 0 ≤ x := by
    intro x hx
    rw [reportAllScores, List.mem_flatMap] at hx
    obtain ⟨p, hp, hx2⟩ := hx
    rw [List.mem_map] at hx2
    obtain ⟨e, he, rfl⟩ := hx2
    exact hnn p hp e he
  have hbase : 0 ≤ reportBaseScore s := by
    rw [reportBaseScore]
    rw [if_neg h]
    have hsum : 0 ≤ (reportAllScores s).sum := List.sum_nonneg hscore
    positivity
  rw [calculate_overall_score]
  rw [if_neg h]
  set base := reportBaseScore s with hb
  set ratio := reportCompletionRatio s with hr
  dsimp only
  split_ifs with h1 h2
  · refine ⟨le_trans (min_le_left _ _) (min_le_left _ _), fun _ => ?_,
      fun _ => ?_, min_le_right _ _⟩
    · calc min (min (base * ratio) (base * (6/10))) base ≤ base * (6/10) :=
        le_trans (min_le_left _ _) (min_le_right _ _)
      _ = (6/10) * base := mul_comm _ _
    · have : min (min (base * ratio) (base * (6/10))) base ≤ base * (6/10) :=
        le_trans (min_le_left _ _) (min_le_right _ _)
      nlinarith
  · refine ⟨le_trans (min_le_left _ _) (min_le_left _ _),
      fun hc => absurd hc h1, fun _ => ?_, min_le_right _ _⟩
    have : min (min (base * ratio) (base * (8/10))) base ≤ base * (8/10) :=
      le_trans (min_le_left _ _) (min_le_right _ _)
    linarith [mul_comm base (8/10 : Rat)]
  · exact ⟨min_le_left _ _, fun hc => absurd hc h1, fun hc => absurd hc h2,
      min_le_right _ _⟩

/-- Witness for C4 at a concrete state with one perfect answer out of one
expected question. -/
theorem C4_overall_score_caps_witness :
    calculate_overall_score c4State ≤
      reportBaseScore c4State * reportCompletionRatio c4State ∧
    (reportCompletionRatio c4State < 5/10 →
      calculate_overall_score c4State ≤ (6/10) * reportBaseScore c4State) ∧
    (reportCompletionRatio c4State < 75/100 →
      calculate_overall_score c4State ≤ (8/10) * reportBaseScore c4State) ∧
    calculate_overall_score c4State ≤ reportBaseScore c4State :=
  C4_overall_score_caps c4State (by decide)
    (by
      intro p hp e he
      simp only [c4State, List.mem_singleton] at hp
      subst hp
      simp only [List.mem_singleton] at he
      subst he
      norm_num [evalOfScore])

/-- C5 (counterexample): a pool whose single account is unhealthy has no
eligible account, yet `get_account` returns that account rather than
`None` — the fallback hands out ineligible accounts. -/
theorem C5_ineligible_account_returned :
    ([unhealthyAccount].filter
      (fun acc => acc.is_healthy && !(acc.is_rate_limited 0))) = [] ∧
    get_account [unhealthyAccount] 0 PoolStrategy.round_robin =
      some unhealthyAccount := by
  constructor
  · decide
  · norm_num [get_account, unhealthyAccount, ProviderAccount.is_rate_limited,
      pySortBy, pySortInsert]

/-- The stable insertion grows the list by one element. -/
theorem pySortInsert_length (le : α → α → Bool) (x : α) (l : List α) :
    (pySortInsert le x l).length = l.length + 1 := by
  induction l with
  | nil => rfl
  | cons y ys ih =>
      rw [pySortInsert]
      split
      · rfl
      · simp [ih]

/-- The stable sort preserves length. -/
theorem pySortBy_length (le : α → α → Bool) (l : List α) :
    (pySortBy le l).length = l.length := by
  induction l with
  | nil => rfl
  | cons x xs ih =>
      rw [pySortBy, pySortInsert_length, ih, List.length_cons]

/-- The stable sort of a non-empty list is non-empty. -/
theorem pySortBy_ne_nil (le : α → α → Bool) (l : List α) (h : l ≠ []) :
    pySortBy le l ≠ [] := by
  intro hcon
  have := pySortBy_length le l
  rw [hcon] at this
  exact h (List.length_eq_zero.mp this.symm)

/-- C5 (amended): `get_account` returns `None` exactly when the provider's
pool is empty; with a non-empty pool some account is always returned, even
when none is healthy and unlimited. -/
theorem C5_none_iff_empty_pool (pool : List ProviderAccount) (now : Nat)
    (strategy : PoolStrategy) :
    get_account pool now strategy = none ↔ pool = [] := by
  constructor
  · intro h
    by_contra hp
    rw [get_account, if_neg hp] at h
    dsimp only at h
    set avail0 := pool.filter
      (fun acc => acc.is_healthy && !(acc.is_rate_limited now)) with ha0
    by_cases h0 : avail0 = []
    · rw [if_pos h0] at h
      have hne := pySortBy_ne_nil (fun a b : ProviderAccount =>
        decide ((a.rate_limit_reset.getD 0) ≥ (b.rate_limit_reset.getD 0))) pool hp
      rw [if_neg hne] at h
      rcases strategy with _ | _ | idx
      · rw [List.head?_eq_none_iff] at h
        exact pySortBy_ne_nil _ _ hne h
      · rw [List.head?_eq_none_iff] at h
        exact pySortBy_ne_nil _ _ hne h
      · have hpos : 0 < (pySortBy (fun a b : ProviderAccount =>
            decide ((a.rate_limit_reset.getD 0) ≥ (b.rate_limit_reset.getD 0)))
            pool).length := List.length_pos.mpr hne
        rw [List.get?_eq_none] at h
        exact absurd h (not_le.mpr (Nat.mod_lt _ hpos))
    · rw [if_neg h0, if_neg h0] at h
      rcases strategy with _ | _ | idx
      · rw [List.head?_eq_none_iff] at h
        exact pySortBy_ne_nil _ _ h0 h
      · rw [List.head?_eq_none_iff] at h
        exact pySortBy_ne_nil _ _ h0 h
      · have hpos : 0 < avail0.length := List.length_pos.mpr h0
        rw [List.get?_eq_none] at h
        exact absurd h (not_le.mpr (Nat.mod_lt _ hpos))
  · intro h
    rw [h, get_account]
    simp

/-- C6 (code_bug): at EXPERT difficulty with a previous score of 0.85 on
the target skill, the adaptive coding-difficulty adjustment computes
`DifficultyLevel(min(4 + 1, 5)) = DifficultyLevel(5)` and the four-valued
constructor fails (Python raises `ValueError`); the same failure escapes a
full `select_next_question_phased` call on the session `c6State`. -/
theorem C6_difficulty_constructor_overflows :
    adaptiveCodingDifficulty c6State.answered_skills "communication"
      DifficultyLevel.expert = none ∧
    difficultyFromInt (min (DifficultyLevel.expert.value + 1) 5) = none ∧
    (select_next_question_phased {} c6State).2 = SelectOut.exn := by
  refine ⟨?_, by decide, ?_⟩
  · norm_num [adaptiveCodingDifficulty, c6State, alGet, List.find?, evalOfScore,
      difficultyFromInt, DifficultyLevel.value]
  · have htech : is_technology_skill "communication" = false := by decide
    have htechrole : is_technical_role c6State = true := by decide
    have hgrad : is_graduate_role "backend-developer" = false := by decide
    have hps : problemSolvingNames.contains (pyToLower "Python") = false := by
      decide
    have hnck : (nonCodingKeywordsShouldAsk.any
        (fun k => pyIn k (pyStrip (pyToLower "backend-developer")))) = false := by
      decide
    have hqt : decide (QuestionType.conceptual = QuestionType.coding) = false := by
      decide
    norm_num [select_next_question_phased, selectTimeCheck, selectRoleSkills,
      selectRoleSkillsRegular,
      c6State, c6StateSkillWeight, htechrole, htech, hgrad, hps, hnck, hqt,
      should_ask_coding_question, alGet, alMem, pySortBy, pySortInsert, pyMaxBy,
      pyTrunc, adaptiveCodingDifficulty, roleSkillDifficultyAdjust,
      difficultyFromInt, DifficultyLevel.value, experienceYearsMap, List.find?,
      evalOfScore, sampleQuestion, List.filter, List.foldl, List.map, List.drop,
      List.getLast?, Option.getD, Option.map]

/-- C7 (counterexample): with a résumé contributing no skills, the
top-weighted record produced for the backend-developer role mapping is
Java with `weight = role_relevance = 0.9` and zero résumé components, so
`weight` is not `0.5*role_relevance + 0.3*resume_experience +
0.2*project_count`. -/
theorem C7_formula_fails_without_resume :
    (calculate_skill_weights backendDeveloperMapping {} 5 5).head? =
      some { skill := "Java", weight := 9/10, role_relevance := 9/10,
             resume_experience := 0, project_count := 0 } ∧
    ¬((9/10 : Rat) = (9/10) * (5/10) + 0 * (3/10) + 0 * (2/10)) := by
  constructor
  · norm_num [calculate_skill_weights, backendDeveloperMapping,
      buildResumeSkills, pySortBy, pySortInsert]
  · norm_num

/-- C3: a new WebSocket for a session that already has a registered
connection is closed with code 1008 with nothing else ever sent on it and
the existing connection left registered; only when the rejection attempt
itself raises (the existing connection is not inspectable, i.e. detectably
dead) is the registration replaced and the old socket closed with 1001. -/
theorem C3_duplicate_connection_rejected (registry : Option Nat)
    (newSock old : Nat) (h : registry = some old) :
    websocketConnect registry newSock false =
      (some old, [WsEvent.closeSock newSock 1008]) ∧
    websocketConnect registry newSock true =
      (some newSock,
        [WsEvent.acceptSock newSock, WsEvent.closeSock old 1001,
         WsEvent.sendMsg newSock "connected"]) := by
  subst h
  exact ⟨rfl, rfl⟩

/-- Witness for C3 with socket 2 arriving while socket 1 is registered. -/
theorem C3_duplicate_connection_rejected_witness :
    websocketConnect (some 1) 2 false =
      (some 1, [WsEvent.closeSock 2 1008]) ∧
    websocketConnect (some 1) 2 true =
      (some 2,
        [WsEvent.acceptSock 2, WsEvent.closeSock 1 1001,
         WsEvent.sendMsg 2 "connected"]) :=
  C3_duplicate_connection_rejected (some 1) 2 1 rfl

/-- C9: with zero questions answered, report generation emits the fixed
"no assessment" report — `overall_score` null (not 0), recommendation
`"no_assessment"` — without any LLM call; the report document is still
written durably and, the write succeeding, the session is patched with the
report id. -/
theorem C9_no_assessment_report (o : ReportOracle) (iid : String)
    (s : InterviewState) (h : s.questions_asked = [])
    (hw : o.firestoreWriteOk = true) :
    (generate_interview_report o iid s).llmCalled = false ∧
    (generate_interview_report o iid s).result =
      some { overall_score := none, recommendation := "no_assessment",
             questions_answered := 0, is_complete := false } ∧
    (generate_interview_report o iid s).firestoreWrite =
      some { report_id := o.reportId, interview_id := iid,
             user_id := s.user_id,
             report_data := { overall_score := none,
                              recommendation := "no_assessment",
                              questions_answered := 0,
                              is_complete := false } } ∧
    (generate_interview_report o iid s).patchedReportId = some o.reportId := by
  simp [generate_interview_report, h, hw]

/-- Witness for C9 on a concrete completed session without answers. -/
theorem C9_no_assessment_report_witness :
    (generate_interview_report c9Oracle "i-9" c9State).llmCalled = false ∧
    (generate_interview_report c9Oracle "i-9" c9State).result =
      some { overall_score := none, recommendation := "no_assessment",
             questions_answered := 0, is_complete := false } ∧
    (generate_interview_report c9Oracle "i-9" c9State).firestoreWrite =
      some { report_id := c9Oracle.reportId, interview_id := "i-9",
             user_id := c9State.user_id,
             report_data := { overall_score := none,
                              recommendation := "no_assessment",
                              questions_answered := 0,
                              is_complete := false } } ∧
    (generate_interview_report c9Oracle "i-9" c9State).patchedReportId =
      some c9Oracle.reportId :=
  C9_no_assessment_report c9Oracle "i-9" c9State rfl rfl

/-- C10: an answer submission without code whose answer text — after the
transcript fallback — is empty or under 10 characters once stripped
returns the error result and leaves everything untouched: the persisted
session state is exactly the loaded one (no evaluation recorded, no
counters changed, flow state not set to ai_thinking) and the accumulated
transcript is not cleared. -/
theorem C10_short_answer_leaves_state_unchanged (o : HandleOracle)
    (s : InterviewState) (q : Question) (acc : String) (ad : AnswerData)
    (hq : s.current_question = some q)
    (hcode : (ad.code ≠ "" && (pyStrip ad.code).length > 0) = false)
    (hans : (ad.answer = "" || (pyStrip ad.answer).length < 10) = true)
    (hacc : (acc = "" || (pyStrip acc).length < 10) = true) :
    handle_answer_submission o (some s) acc ad =
      (HandleResult.error
        "Answer is too short or empty. Please provide a meaningful answer.",
       some s, acc) := by
  rw [handle_answer_submission, hq]
  simp only [hcode, hans, hacc, Bool.false_eq_true, if_false, if_true]

/-- Witness for C10: a 5-character answer with a 2-character accumulated
transcript is rejected without touching the session. -/
theorem C10_short_answer_leaves_state_unchanged_witness :
    handle_answer_submission {} (some c10State) "hi"
      { answer := "short", code := "", language := "" } =
      (HandleResult.error
        "Answer is too short or empty. Please provide a meaningful answer.",
       some c10State, "hi") :=
  C10_short_answer_leaves_state_unchanged {} c10State sampleQuestion "hi"
    { answer := "short", code := "", language := "" }
    rfl (by decide) (by decide) (by decide)

/-- The pool/dynamic tail of the skill branches returns the state it was
handed, unchanged. -/
theorem selectSkillQuestionTail_state (o : SelectOracle) (s : InterviewState)
    (t : String) (d : DifficultyLevel) (p : String) (qt : QuestionType) :
    (selectSkillQuestionTail o s t d p qt).1 = s := by
  simp only [selectSkillQuestionTail]
  repeat' split
  all_goals rfl

/-- The regular role_skills selection never changes the current phase. -/
theorem selectRoleSkillsRegular_phase (o : SelectOracle) (s : InterviewState) :
    (selectRoleSkillsRegular o s).1.current_phase = s.current_phase := by
  simp only [selectRoleSkillsRegular, selectSkillQuestionTail]
  repeat' split
  all_goals rfl

/-- The role_skills branch never changes the current phase. -/
theorem selectRoleSkills_phase (o : SelectOracle) (s : InterviewState) :
    (selectRoleSkills o s).1.current_phase = s.current_phase := by
  rw [selectRoleSkills]
  dsimp only
  repeat' split
  all_goals first
    | rfl
    | exact selectRoleSkillsRegular_phase o s

/-- C8 (counterexample): in the standout phase the selector picks "alpha"
(most résumé experience) although the not-yet-asked skill "beta" has
résumé experience and a strictly higher weight — so the highest-weight
rule of the claim does not describe the code. -/
theorem C8_highest_weight_claim_fails :
    (select_next_question_phased {} c8State).1.current_skill = some "alpha" ∧
    (c8State.skill_weights.any (fun sw =>
      decide (sw.resume_experience > 0) &&
      !(alMem c8State.answered_skills sw.skill) &&
      decide (sw.skill ≠ "alpha") && decide (sw.weight > 6/10))) = true := by
  constructor
  · have htech : is_technology_skill "alpha" = false := by decide
    have hps : problemSolvingNames.contains (pyToLower "alpha") = false := by
      decide
    norm_num [select_next_question_phased, selectTimeCheck, selectStandoutSkills,
      c8State, standoutPrimaryFilter, standoutFallbackFilter, standoutKeyGt,
      htech, hps, should_ask_coding_question, alGet, alMem, pySortBy,
      pySortInsert, pyMaxBy, selectSkillQuestionTail, List.find?, List.filter,
      List.foldl, List.map, List.drop, List.any, Option.getD, Option.map]
  · norm_num [c8State, alMem, List.any]
    decide

/-- C8 (amended): within its 4-question budget the standout branch picks,
among skills with `weight ≥ 0.5`, résumé experience `> 0` and not yet
answered, the maximum under the lexicographic key `(resume_experience,
weight)`; when that set is empty it picks the same maximum among
not-yet-answered skills with `weight ≥ 0.6`; and when that is also empty
it advances the session to the role_skills phase. -/
theorem C8_standout_selection_policy (o : SelectOracle) (s : InterviewState)
    (hphase : s.current_phase = InterviewPhase.standout_skills)
    (hcount : s.phase_questions InterviewPhase.standout_skills < 4)
    (htime : (s.started_at.isSome && o.timeUp) = false) :
    (∀ x xs, standoutPrimaryFilter s = x :: xs →
      (select_next_question_phased o s).1.current_skill =
        some (pyMaxBy standoutKeyGt x xs).skill) ∧
    (standoutPrimaryFilter s = [] →
      ∀ x xs, standoutFallbackFilter s = x :: xs →
      (select_next_question_phased o s).1.current_skill =
        some (pyMaxBy standoutKeyGt x xs).skill) ∧
    (standoutPrimaryFilter s = [] → standoutFallbackFilter s = [] →
      (select_next_question_phased o s).1.current_phase =
        InterviewPhase.role_skills) := by
  have hc4 : ¬ s.phase_questions InterviewPhase.standout_skills ≥ 4 := by omega
  refine ⟨?_, ?_, ?_⟩
  · intro x xs hx
    simp only [select_next_question_phased, selectTimeCheck, htime,
      Bool.false_eq_true, if_false, hphase, selectStandoutSkills, if_neg hc4, hx,
      reduceCtorEq, if_false]
    repeat' split
    all_goals first
      | rfl
      | (rw [selectSkillQuestionTail_state])
  · intro hp x xs hx
    simp only [select_next_question_phased, selectTimeCheck, htime,
      Bool.false_eq_true, if_false, hphase, selectStandoutSkills, if_neg hc4,
      hp, hx, if_pos]
    repeat' split
    all_goals first
      | rfl
      | (rw [selectSkillQuestionTail_state])
  · intro hp hf
    simp only [select_next_question_phased, selectTimeCheck, htime,
      Bool.false_eq_true, if_false, hphase, selectStandoutSkills, if_neg hc4,
      hp, hf, if_pos]
    rw [selectRoleSkills_phase]

/-- Witness for C8's selection policy on the two-candidate session. -/
theorem C8_standout_selection_policy_witness :
    (∀ x xs, standoutPrimaryFilter c8State = x :: xs →
      (select_next_question_phased {} c8State).1.current_skill =
        some (pyMaxBy standoutKeyGt x xs).skill) ∧
    (standoutPrimaryFilter c8State = [] →
      ∀ x xs, standoutFallbackFilter c8State = x :: xs →
      (select_next_question_phased {} c8State).1.current_skill =
        some (pyMaxBy standoutKeyGt x xs).skill) ∧
    (standoutPrimaryFilter c8State = [] → standoutFallbackFilter c8State = [] →
      (select_next_question_phased {} c8State).1.current_phase =
        InterviewPhase.role_skills) :=
  C8_standout_selection_policy {} c8State rfl (by decide) (by decide)

/-- The stable insertion holds exactly the inserted element and the old
ones. -/
theorem pySortInsert_mem (le : α → α → Bool) (x a : α) (l : List α) :
    a ∈ pySortInsert le x l ↔ a = x ∨ a ∈ l := by
  induction l with
  | nil => simp [pySortInsert]
  | cons y ys ih =>
      rw [pySortInsert]
      split
      · simp
      · simp [ih]
        tauto

/-- The stable sort holds exactly the original elements. -/
theorem pySortBy_mem (le : α → α → Bool) (a : α) (l : List α) :
    a ∈ pySortBy le l ↔ a ∈ l := by
  induction l with
  | nil => simp [pySortBy]
  | cons x xs ih =>
      rw [pySortBy, pySortInsert_mem]
      simp [ih]

/-- C7 (amended): when the résumé contributes at least one skill, every
record of `calculate_skill_weights` satisfies the weighted formula
`0.5*role_relevance + 0.3*resume_experience + 0.2*project_count` with the
résumé components normalised into [0,1]; when the résumé contributes no
skills, the records instead come straight from the role tables — weight
equal to the role relevance for primary skills and half of it for
secondary skills — with zero résumé components. -/
theorem C7_weight_formula (m : RoleMapping) (rd : ResumeData)
    (my : Rat) (mp : Nat) (hmy : 0 < my)
    (hyears : ∀ entry ∈ buildResumeSkills rd, 0 ≤ entry.2.1) :
    ∀ sw ∈ calculate_skill_weights m rd my mp,
      (buildResumeSkills rd ≠ [] →
        sw.weight = sw.role_relevance * (5/10) +
          sw.resume_experience * (3/10) + sw.project_count * (2/10) ∧
        0 ≤ sw.resume_experience ∧ sw.resume_experience ≤ 1 ∧
        0 ≤ sw.project_count ∧ sw.project_count ≤ 1) ∧
      (buildResumeSkills rd = [] →
        sw.resume_experience = 0 ∧ sw.project_count = 0 ∧
        (sw.weight = sw.role_relevance ∨
          sw.weight = sw.role_relevance * (5/10))) := by
  intro sw hsw
  rw [calculate_skill_weights] at hsw
  rw [pySortBy_mem] at hsw
  by_cases hb : buildResumeSkills rd = []
  · rw [if_pos hb] at hsw
    refine ⟨fun hne => absurd hb hne, fun _ => ?_⟩
    rw [List.mem_append] at hsw
    rcases hsw with hsw | hsw <;> rw [List.mem_map] at hsw <;>
      obtain ⟨pr, hpr, rfl⟩ := hsw
    · exact ⟨rfl, rfl, Or.inl rfl⟩
    · exact ⟨rfl, rfl, Or.inr rfl⟩
  · rw [if_neg hb] at hsw
    refine ⟨fun _ => ?_, fun he => absurd he hb⟩
    rw [List.mem_map] at hsw
    obtain ⟨entry, hin, rfl⟩ := hsw
    refine ⟨rfl, ?_, min_le_right _ _, ?_, min_le_right _ _⟩
    · exact le_min (div_nonneg (hyears entry hin) hmy.le) zero_le_one
    · exact le_min (div_nonneg (Nat.cast_nonneg _) (Nat.cast_nonneg _))
        zero_le_one

/-- Witness for C7's amended formula on a one-skill résumé: the single
record produced for `c7Resume` satisfies the weighted formula with its
résumé components in range. -/
theorem C7_weight_formula_witness :
    c7SW ∈ calculate_skill_weights backendDeveloperMapping c7Resume 5 5 ∧
    c7SW.weight = c7SW.role_relevance * (5/10) +
      c7SW.resume_experience * (3/10) + c7SW.project_count * (2/10) ∧
    0 ≤ c7SW.resume_experience ∧ c7SW.resume_experience ≤ 1 ∧
    0 ≤ c7SW.project_count ∧ c7SW.project_count ≤ 1 := by
  have hmem : c7SW ∈ calculate_skill_weights backendDeveloperMapping c7Resume 5 5 := by
    simp only [calculate_skill_weights, backendDeveloperMapping,
      buildResumeSkills, c7Resume, c7SW, alSet, alGet, pySortBy, pySortInsert,
      List.find?, Option.map, List.foldl, List.map]
    simp
    try norm_num [min_def]
  have hne : buildResumeSkills c7Resume ≠ [] := by
    norm_num [buildResumeSkills, c7Resume, alSet, alGet]
  have h := C7_weight_formula backendDeveloperMapping c7Resume 5 5 (by norm_num)
    (by
      intro entry hin
      simp only [c7Resume, buildResumeSkills, List.foldl, alSet, alGet] at hin
      simp only [List.mem_singleton] at hin
      subst hin
      norm_num)
    c7SW hmem
  exact ⟨hmem, (h.1 hne).1, (h.1 hne).2.1, (h.1 hne).2.2.1,
    (h.1 hne).2.2.2.1, (h.1 hne).2.2.2.2⟩


/-- `CountersEq` is reflexive. -/
theorem CountersEq.refl (s : InterviewState) : CountersEq s s :=
  ⟨rfl, rfl, rfl, rfl, rfl⟩

/-- `CountersEq` is transitive. -/
theorem CountersEq.trans {s1 s2 s3 : InterviewState}
    (h1 : CountersEq s1 s2) (h2 : CountersEq s2 s3) : CountersEq s1 s3 :=
  ⟨h1.1.trans h2.1, h1.2.1.trans h2.2.1, h1.2.2.1.trans h2.2.2.1,
   h1.2.2.2.1.trans h2.2.2.2.1, h1.2.2.2.2.trans h2.2.2.2.2⟩

/-- Writing a phase count back unchanged is a no-op. -/
theorem updPQ_self (f : InterviewPhase → Nat) (p : InterviewPhase) :
    updPQ f p (f p) = f := by
  funext q
  rw [updPQ]
  split
  · next hqp => rw [hqp]
  · rfl

/-- The pool/dynamic tail leaves the counters alone. -/
theorem selectSkillQuestionTail_counters (o : SelectOracle) (s : InterviewState)
    (t : String) (d : DifficultyLevel) (p : String) (qt : QuestionType) :
    CountersEq (selectSkillQuestionTail o s t d p qt).1 s := by
  rw [selectSkillQuestionTail_state]
  exact CountersEq.refl s

/-- The regular role_skills selection leaves the counters alone. -/
theorem selectRoleSkillsRegular_counters (o : SelectOracle) (s : InterviewState) :
    CountersEq (selectRoleSkillsRegular o s).1 s := by
  simp only [selectRoleSkillsRegular, selectSkillQuestionTail]
  repeat' split
  all_goals exact ⟨rfl, rfl, rfl, rfl, rfl⟩

/-- The role_skills branch leaves the counters alone. -/
theorem selectRoleSkills_counters (o : SelectOracle) (s : InterviewState) :
    CountersEq (selectRoleSkills o s).1 s := by
  rw [selectRoleSkills]
  dsimp only
  repeat' split
  all_goals first
    | exact ⟨rfl, rfl, rfl, rfl, rfl⟩
    | exact selectRoleSkillsRegular_counters o s

/-- The standout_skills branch leaves the counters alone. -/
theorem selectStandoutSkills_counters (o : SelectOracle) (s : InterviewState) :
    CountersEq (selectStandoutSkills o s).1 s := by
  rw [selectStandoutSkills]
  dsimp only
  split
  · next hge =>
      rw [selectTimeCheck]
      have hpq := updPQ_self s.phase_questions InterviewPhase.standout_skills
      split
      · exact ⟨by simpa using hpq, rfl, rfl, rfl, rfl⟩
      · refine CountersEq.trans (selectRoleSkills_counters o _) ?_
        exact ⟨by simpa using hpq, rfl, rfl, rfl, rfl⟩
  · split
    · rw [selectTimeCheck]
      have hpq := updPQ_self s.phase_questions InterviewPhase.standout_skills
      split
      · exact ⟨by simpa using hpq, rfl, rfl, rfl, rfl⟩
      · refine CountersEq.trans (selectRoleSkills_counters o _) ?_
        exact ⟨by simpa using hpq, rfl, rfl, rfl, rfl⟩
    · repeat' split
      all_goals first
        | exact ⟨rfl, rfl, rfl, rfl, rfl⟩
        | exact CountersEq.trans (selectSkillQuestionTail_counters o _ _ _ _ _)
            ⟨rfl, rfl, rfl, rfl, rfl⟩

/-- The projects branch leaves the counters alone. -/
theorem selectProjects_counters (o : SelectOracle) (s : InterviewState) :
    CountersEq (selectProjects o s).1 s := by
  rw [selectProjects]
  dsimp only
  have hpq := updPQ_self s.phase_questions InterviewPhase.projects
  split
  · rw [selectTimeCheck]
    split
    · exact ⟨by simpa using hpq, rfl, rfl, rfl, rfl⟩
    · refine CountersEq.trans (selectStandoutSkills_counters o _) ?_
      exact ⟨by simpa using hpq, rfl, rfl, rfl, rfl⟩
  · repeat' split
    all_goals first
      | exact ⟨rfl, rfl, rfl, rfl, rfl⟩
      | skip
    · rw [selectTimeCheck]
      split
      · exact ⟨by simpa using hpq, rfl, rfl, rfl, rfl⟩
      · refine CountersEq.trans (selectStandoutSkills_counters o _) ?_
        exact ⟨by simpa using hpq, rfl, rfl, rfl, rfl⟩

/-- After the introduction question was produced once, the introduction
branch only advances the phase and leaves the counters alone. -/
theorem selectIntroduction_counters (o : SelectOracle) (s : InterviewState)
    (h : 1 ≤ s.phase_questions InterviewPhase.introduction) :
    CountersEq (selectIntroduction o s).1 s := by
  rw [selectIntroduction]
  dsimp only
  rw [if_pos h]
  have hpq := updPQ_self s.phase_questions InterviewPhase.introduction
  rw [selectTimeCheck]
  split
  · exact ⟨by simpa using hpq, rfl, rfl, rfl, rfl⟩
  · refine CountersEq.trans (selectProjects_counters o _) ?_
    exact ⟨by simpa using hpq, rfl, rfl, rfl, rfl⟩

/-- After `/start`, the phased selector never changes any counter. -/
theorem select_next_question_phased_counters (o : SelectOracle)
    (s : InterviewState)
    (h : 1 ≤ s.phase_questions InterviewPhase.introduction) :
    CountersEq (select_next_question_phased o s).1 s := by
  rw [select_next_question_phased, selectTimeCheck]
  split
  · exact CountersEq.refl s
  · cases hp : s.current_phase
    · exact selectIntroduction_counters o s h
    · exact selectProjects_counters o s
    · exact selectStandoutSkills_counters o s
    · exact selectRoleSkills_counters o s

/-- The counter invariant transfers along counter equality. -/
theorem sessionCountersOk_of_eq {s1 s2 : InterviewState}
    (hc : CountersEq s1 s2) (h : sessionCountersOk s2) :
    sessionCountersOk s1 := by
  obtain ⟨h1, h2, h3, h4, h5⟩ := hc
  exact ⟨by rw [h2, h3, h.1], by rw [h1, h2, h.2.1],
    by rw [h4, h5]; exact h.2.2.1, by rw [h1]; exact h.2.2.2⟩

/-- Bumping one phase count bumps the sum by one. -/
theorem sumPhaseQuestions_updPQ_succ (f : InterviewPhase → Nat)
    (p : InterviewPhase) :
    sumPhaseQuestions (updPQ f p (f p + 1)) = sumPhaseQuestions f + 1 := by
  cases p <;> simp [sumPhaseQuestions, updPQ] <;> omega

/-- Bumping any phase count never lowers the introduction count. -/
theorem updPQ_succ_intro_le (f : InterviewPhase → Nat) (p : InterviewPhase) :
    f InterviewPhase.introduction ≤
      updPQ f p (f p + 1) InterviewPhase.introduction := by
  rw [updPQ]
  split
  · next h => rw [h]; omega
  · omega

/-- Recording an evaluation leaves the counters alone. -/
theorem recordEvaluation_counters (s1 : InterviewState) (q : Question)
    (e : Evaluation) : CountersEq (recordEvaluation s1 q e) s1 := by
  rw [recordEvaluation]
  dsimp only
  repeat' split
  all_goals exact ⟨rfl, rfl, rfl, rfl, rfl⟩

/-- One turn's counter updates preserve the invariant: the total, asked
list and phase sum all advance together and the window stays bounded. -/
theorem applyTurnCounters_ok (s3 : InterviewState) (q : Question)
    (t : String) (e : Evaluation) (h : sessionCountersOk s3) :
    sessionCountersOk (applyTurnCounters s3 q t e) := by
  rw [applyTurnCounters, update_phase_question_count]
  dsimp only
  refine ⟨?_, ?_, ?_, ?_⟩
  · dsimp only [sessionCountersOk]
    rw [List.length_append, List.length_cons, List.length_nil, h.1]
  · rw [sumPhaseQuestions_updPQ_succ, h.2.1]
  · dsimp only
    split
    · next hgt => rw [List.length_drop]; omega
    · next hgt => omega
  · exact le_trans h.2.2.2 (updPQ_succ_intro_le _ _)

/-- Installing the next question leaves the counters alone. -/
theorem setNextQuestion_counters (s6 : InterviewState) (nq : Question) :
    CountersEq (setNextQuestion s6 nq) s6 := by
  rw [setNextQuestion]
  dsimp only
  repeat' split
  all_goals exact ⟨rfl, rfl, rfl, rfl, rfl⟩

/-- The post-validation core of an answer submission preserves the
counter invariant on the persisted state. -/
theorem handleAnswerCore_ok (o : HandleOracle) (s : InterviewState)
    (q : Question) (t : String) (h : sessionCountersOk s) :
    sessionCountersOk (((handleAnswerCore o s q t).2.1).getD s) := by
  have hsel := select_next_question_phased_counters o.sel
    { s with flow_state := InterviewFlowState.ai_thinking } h.2.2.2
  rw [handleAnswerCore]
  generalize hg : select_next_question_phased o.sel
    { s with flow_state := InterviewFlowState.ai_thinking } = sel
  rw [hg] at hsel
  obtain ⟨s1, out⟩ := sel
  have hs1 : sessionCountersOk s1 :=
    sessionCountersOk_of_eq (CountersEq.trans hsel (CountersEq.refl _)) h
  cases he : o.evalResult with
  | none => exact h
  | some evaluation =>
      dsimp only
      have hs6e : sessionCountersOk
          (applyTurnCounters (recordEvaluation s1 q evaluation) q t
            evaluation) :=
        applyTurnCounters_ok _ _ _ _
          (sessionCountersOk_of_eq (recordEvaluation_counters _ _ _) hs1)
      cases out with
      | exn =>
          dsimp only
          exact sessionCountersOk_of_eq ⟨rfl, rfl, rfl, rfl, rfl⟩ hs6e
      | ok onq =>
          cases onq with
          | none =>
              dsimp only
              exact sessionCountersOk_of_eq ⟨rfl, rfl, rfl, rfl, rfl⟩ hs6e
          | some nq =>
              dsimp only
              split
              · exact sessionCountersOk_of_eq ⟨rfl, rfl, rfl, rfl, rfl⟩ hs6e
              · exact sessionCountersOk_of_eq
                  (CountersEq.trans (setNextQuestion_counters _ _)
                    (CountersEq.refl _)) hs6e

/-- Every message-handler step preserves the counter invariant on the
persisted state. -/
theorem applySessionStep_ok (s : InterviewState) (step : SessionStep)
    (h : sessionCountersOk s) : sessionCountersOk (applySessionStep s step) := by
  cases step with
  | audioChunk =>
      rw [applySessionStep, audioChunkFlowSnap]
      repeat' split
      all_goals exact h
  | answerMsg o acc ad =>
      rw [applySessionStep, handle_answer_submission]
      cases hq : s.current_question with
      | none => simpa using h
      | some q =>
          dsimp only
          split
          · exact handleAnswerCore_ok o s q _ h
          · split
            · split
              · simpa using h
              · exact handleAnswerCore_ok o s q _ h
            · exact handleAnswerCore_ok o s q _ h

/-- The state persisted by a successful `/start` satisfies the amended
counter invariant — with the phase-count sum already one ahead of
`total_questions` because the introduction question is pre-counted. -/
theorem startInterviewSession_ok (o : SelectOracle) (iid uid role : String)
    (rd : ResumeData) (sws : List SkillWeight) (t : Nat) (s0 : InterviewState)
    (h : startInterviewSession o iid uid role rd sws t = some s0) :
    sessionCountersOk s0 := by
  rw [startInterviewSession, create_interview_state] at h
  simp only [select_next_question_phased, selectTimeCheck, selectIntroduction,
    generate_intro_question, Option.isSome_none, Bool.false_and,
    Bool.false_eq_true, if_false, Nat.not_succ_le_zero, ge_iff_le] at h
  rw [if_neg (by omega : ¬ (1 : Nat) ≤ 0)] at h
  dsimp only at h
  rw [Option.some_inj] at h
  subst h
  refine ⟨rfl, ?_, by simp, ?_⟩
  · simp [sumPhaseQuestions, updPQ]
  · simp [updPQ]

/-- C1 (counterexample): immediately after `/start` — i.e. after the empty
sequence of message-handler invocations — `total_questions` and the number
of asked questions are 0 while the per-phase counts already sum to 1, so
the three quantities of the claim are not all equal. -/
theorem C1_phase_count_sum_differs :
    ∃ s0, startInterviewSession {} "i-1" "u-1" "backend-developer" {} [] 0 =
        some s0 ∧
      s0.total_questions = 0 ∧ s0.questions_asked.length = 0 ∧
      sumPhaseQuestions s0.phase_questions = 1 := by
  refine ⟨_, rfl, rfl, rfl, ?_⟩
  decide

/-- C1 (amended): for every session created by `/start` and every sequence
of message-handler invocations, `total_questions` equals the length of the
asked-questions list, the per-phase counts sum to `total_questions + 1`
(the pre-counted introduction question), and the conversation window never
exceeds `max_context_pairs`. -/
theorem C1_counters_after_any_steps (o : SelectOracle)
    (iid uid role : String) (rd : ResumeData) (sws : List SkillWeight)
    (t : Nat) (s0 : InterviewState)
    (h0 : startInterviewSession o iid uid role rd sws t = some s0)
    (steps : List SessionStep) :
    (steps.foldl applySessionStep s0).total_questions =
      (steps.foldl applySessionStep s0).questions_asked.length ∧
    sumPhaseQuestions (steps.foldl applySessionStep s0).phase_questions =
      (steps.foldl applySessionStep s0).total_questions + 1 ∧
    (steps.foldl applySessionStep s0).conversation_history.length ≤
      (steps.foldl applySessionStep s0).max_context_pairs := by
  have hok : ∀ s, sessionCountersOk s →
      sessionCountersOk (steps.foldl applySessionStep s) := by
    induction steps with
    | nil => exact fun s hs => hs
    | cons x xs ih =>
        exact fun s hs => ih _ (applySessionStep_ok s x hs)
  have h := hok s0 (startInterviewSession_ok o iid uid role rd sws t s0 h0)
  exact ⟨h.1, h.2.1, h.2.2.1⟩

/-- Witness for C1's amended invariant after one audio-chunk step on a
freshly started session. -/
theorem C1_counters_after_any_steps_witness :
    ([SessionStep.audioChunk].foldl applySessionStep
        c1StartState).total_questions =
      ([SessionStep.audioChunk].foldl applySessionStep
        c1StartState).questions_asked.length ∧
    sumPhaseQuestions ([SessionStep.audioChunk].foldl applySessionStep
        c1StartState).phase_questions =
      ([SessionStep.audioChunk].foldl applySessionStep
        c1StartState).total_questions + 1 ∧
    ([SessionStep.audioChunk].foldl applySessionStep
        c1StartState).conversation_history.length ≤
      ([SessionStep.audioChunk].foldl applySessionStep
        c1StartState).max_context_pairs :=
  C1_counters_after_any_steps {} "i-1" "u-1" "backend-developer" {} [] 0
    c1StartState rfl [SessionStep.audioChunk]

end Mockday
